import Mathlib

/-!
# Metal descriptor mirrors and wrappers (`renderdoc/driver/metal`)

A shallow embedding of the descriptor mirroring code and of the bridge helper of
`metal_types.cpp`, and of the construction of the device wrapper of `metal_device.cpp`.

* An `rdcarray<T>` is a `List T`.
* A native slot array (`MTL::...DescriptorArray`) is a function `Nat → Option N`:
  `object(i)` is the element pointer at slot `i`, `none` being a null pointer.
* Native objects are records of the properties the code reads and writes; a setter
  changes its own property only.  A message sent to a null pointer does nothing.
* Integers and enumerations are natural numbers, text is a `String`; a native string read
  through `utf8String()` into a mirror string is cut at its first NUL character.
* A fatal error ends an operation with its diagnostic; the construction of a wrapper is a
  function of the state outside the wrapper and of the wrapper, and lists its effects.
-/


/-! ## Native objects -/

namespace NS

/-- An `NS::Array *` of object pointers of type `P`: `none` is the null pointer. -/
abbrev Array (P : Type) := Option (List P)

/-- `NS::Array::count()`; a null array answers 0. -/
def Array.count {P : Type} (a : NS.Array P) : Nat :=
  match a with
  | some l => l.length
  | none => 0

/-- `NS::Array::object(i)`, a pointer; a null array answers the null pointer. -/
def Array.object {P : Type} (a : NS.Array (Option P)) (i : Nat) : Option P :=
  match a with
  | some l => l.getD i none
  | none => none

/-- `NS::Array::array(objects, count)`. -/
def Array.array {P : Type} (objects : List P) (count : Nat) : NS.Array P :=
  some (objects.take count)

/-- An `NS::Dictionary` from text keys to object pointers of type `V`: its entries in the
order its key enumerator yields them. -/
structure Dictionary (V : Type) where
  /-- The key-value pairs in enumeration order. -/
  entries : List (String × V)

/-- `dict->keyEnumerator()->allObjects()` as the sequence `keys->object(0..count-1)`; a null
dictionary has no keys. -/
def Dictionary.allKeys {V : Type} (d : Option (NS.Dictionary V)) : List String :=
  match d with
  | some x => x.entries.map Prod.fst
  | none => []

/-- `NS::Dictionary::object(key)` for pointer values: the value stored under `key`, the null
pointer when there is none or when the dictionary is null. -/
def Dictionary.object {V : Type} (d : Option (NS.Dictionary (Option V))) (key : String) :
    Option V :=
  match d with
  | some x =>
    match x.entries.find? (fun e => e.1 == key) with
    | some e => e.2
    | none => none
  | none => none

end NS

namespace MTL

/-- `MTL::VertexFormatInvalid`. -/
def VertexFormatInvalid : Nat := 0

/-- `MTL::MutabilityDefault`. -/
def MutabilityDefault : Nat := 0

/-- `MTL::PixelFormatInvalid`. -/
def PixelFormatInvalid : Nat := 0

/-- A native function object, `MTL::Function`. -/
structure Function where
  /-- The identity of the native object. -/
  handle : Nat
deriving DecidableEq, Repr

/-- `MTL::VertexAttributeDescriptor`. -/
structure VertexAttributeDescriptor where
  format : Nat
  offset : Nat
  bufferIndex : Nat
deriving DecidableEq, Repr

/-- `MTL::VertexBufferLayoutDescriptor`. -/
structure VertexBufferLayoutDescriptor where
  stride : Nat
  stepFunction : Nat
  stepRate : Nat
deriving DecidableEq, Repr

/-- `MTL::PipelineBufferDescriptor`. -/
structure PipelineBufferDescriptor where
  mutability : Nat
deriving DecidableEq, Repr

/-- `MTL::RenderPipelineColorAttachmentDescriptor`. -/
structure RenderPipelineColorAttachmentDescriptor where
  pixelFormat : Nat
  blendingEnabled : Bool
  sourceRGBBlendFactor : Nat
  destinationRGBBlendFactor : Nat
  rgbBlendOperation : Nat
  sourceAlphaBlendFactor : Nat
  destinationAlphaBlendFactor : Nat
  alphaBlendOperation : Nat
  writeMask : Nat
deriving DecidableEq, Repr

/-- `MTL::VertexDescriptor` with its two slot arrays. -/
structure VertexDescriptor where
  layouts : Nat → Option VertexBufferLayoutDescriptor
  attributes : Nat → Option VertexAttributeDescriptor

/-- `MTL::TextureSwizzleChannels`. -/
structure TextureSwizzleChannels where
  red : Nat
  green : Nat
  blue : Nat
  alpha : Nat
deriving DecidableEq, Repr

/-- `MTL::TextureDescriptor`. -/
structure TextureDescriptor where
  textureType : Nat
  pixelFormat : Nat
  width : Nat
  height : Nat
  depth : Nat
  mipmapLevelCount : Nat
  sampleCount : Nat
  arrayLength : Nat
  resourceOptions : Nat
  cpuCacheMode : Nat
  storageMode : Nat
  hazardTrackingMode : Nat
  usage : Nat
  allowGPUOptimizedContents : Bool
  swizzle : TextureSwizzleChannels
deriving DecidableEq, Repr

/-- `MTL::LinkedFunctions`. -/
structure LinkedFunctions where
  functions : NS.Array (Option Function)
  binaryFunctions : NS.Array (Option Function)
  groups : Option (NS.Dictionary (NS.Array (Option Function)))
  privateFunctions : NS.Array (Option Function)

/-- `MTL::RenderPipelineDescriptor`. -/
structure RenderPipelineDescriptor where
  label : Option String
  vertexFunction : Option Function
  fragmentFunction : Option Function
  vertexDescriptor : Option VertexDescriptor
  sampleCount : Nat
  rasterSampleCount : Nat
  alphaToCoverageEnabled : Bool
  alphaToOneEnabled : Bool
  rasterizationEnabled : Bool
  maxVertexAmplificationCount : Nat
  colorAttachments : Nat → Option RenderPipelineColorAttachmentDescriptor
  depthAttachmentPixelFormat : Nat
  stencilAttachmentPixelFormat : Nat
  inputPrimitiveTopology : Nat
  tessellationPartitionMode : Nat
  maxTessellationFactor : Nat
  tessellationFactorScaleEnabled : Bool
  tessellationFactorFormat : Nat
  tessellationControlPointIndexType : Nat
  tessellationFactorStepFunction : Nat
  tessellationOutputWindingOrder : Nat
  vertexBuffers : Nat → Option PipelineBufferDescriptor
  fragmentBuffers : Nat → Option PipelineBufferDescriptor
  supportIndirectCommandBuffers : Bool
  vertexLinkedFunctions : Option LinkedFunctions
  fragmentLinkedFunctions : Option LinkedFunctions
  supportAddingVertexBinaryFunctions : Bool
  supportAddingFragmentBinaryFunctions : Bool
  maxVertexCallStackDepth : Nat
  maxFragmentCallStackDepth : Nat

/-- The slot array `objc->layouts()` of a vertex descriptor pointer; through a null
pointer every slot reads as null. -/
def VertexDescriptor.layoutsOf (objc : Option VertexDescriptor) :
    Nat → Option VertexBufferLayoutDescriptor :=
  match objc with
  | some d => d.layouts
  | none => fun _ => none

/-- The slot array `objc->attributes()` of a vertex descriptor pointer; through a null
pointer every slot reads as null. -/
def VertexDescriptor.attributesOf (objc : Option VertexDescriptor) :
    Nat → Option VertexAttributeDescriptor :=
  match objc with
  | some d => d.attributes
  | none => fun _ => none

end MTL

/-- A wrapped function object, `WrappedMTLFunction`. -/
structure WrappedMTLFunction where
  /-- The identity of the wrapper. -/
  id : Nat
deriving DecidableEq, Repr

namespace RDMTL

/-! ## `rdcarray` -/

/-- Modelled from the spec: `rdcarray<T>::resize(s)` of the container header, which is
not among the source files.  The array is cut to `s` elements or grown to `s` elements,
the new ones being default-valued. -/
def rdcarray.resize {T : Type} (dflt : T) (a : List T) (s : Nat) : List T :=
  a.take s ++ List.replicate (s - a.length) dflt

/-- Modelled from the spec: `rdcarray<T>::resize_for_index(i)` of the container header,
which is not among the source files ("the mirror's array is grown only up to the highest
valid index encountered, leaving gaps as default-valued entries"): an array too short to
hold index `i` is resized to `i + 1` elements, any other array is left alone. -/
def rdcarray.resize_for_index {T : Type} (dflt : T) (a : List T) (i : Nat) : List T :=
  if a.length ≤ i then rdcarray.resize dflt a (i + 1) else a

/-! ## `rdcstr` -/

/-- `rdcstr::assign(const char *)` on the pointer `str->utf8String()` of a native string
whose text is `nativeText`. The pointer is a C string, which ends at its first NUL
character: the mirror string receives the text of the native string before its first NUL,
the whole text when it holds none. -/
def rdcstr.assign (nativeText : String) : String :=
  String.mk (nativeText.data.takeWhile fun c => c != Char.ofNat 0)

/-! ## Slot arrays -/

/-- One iteration of the loop of `GetObjcArray`. -/
def GetObjcArray.step {M N : Type} (dflt : M) (mk : N → M) (src : Nat → Option N)
    (validData : N → Bool) (dst : List M) (i : Nat) : List M :=
  match src i with
  | some el =>
    if validData el then (rdcarray.resize_for_index dflt dst i).set i (mk el) else dst
  | none => dst

/-- `GetObjcArray<RDMTL_TYPE, MTLARRAY_TYPE, MTL_TYPE, MAX_COUNT>(to, from, validData)`.
`mk` is the constructor `RDMTL_TYPE(el)` and `dflt` the default-constructed `RDMTL_TYPE`. -/
def GetObjcArray {M N : Type} (MAX_COUNT : Nat) (dflt : M) (mk : N → M) (dst : List M)
    (src : Nat → Option N) (validData : N → Bool) : List M :=
  (List.range MAX_COUNT).foldl (GetObjcArray.step dflt mk src validData) dst

/-- The condition `el && validData(el)` of `GetObjcArray` at slot `i`. -/
def accepted {N : Type} (src : Nat → Option N) (validData : N → Bool) (i : Nat) : Bool :=
  match src i with
  | some el => validData el
  | none => false

/-- The mirror entry expected at slot `i`: the mirror of the native element when it is
accepted, the default-valued entry otherwise. -/
def mirrorAt {M N : Type} (dflt : M) (mk : N → M) (src : Nat → Option N)
    (validData : N → Bool) (i : Nat) : M :=
  match src i with
  | some el => if validData el then mk el else dflt
  | none => dflt

/-- The state of the loop of `GetObjcArray`, started on an empty array, after the slots
below `k`. -/
def GetObjcArray.Inv {M N : Type} (dflt : M) (mk : N → M) (src : Nat → Option N)
    (validData : N → Bool) (k : Nat) (out : List M) : Prop :=
  out.length ≤ k ∧
  (∀ i, i < k → accepted src validData i = true → i < out.length) ∧
  (out.length ≠ 0 → accepted src validData (out.length - 1) = true) ∧
  (∀ i, i < out.length → out[i]? = some (mirrorAt dflt mk src validData i))

/-- One iteration of the loop of `CopyToObjcArray`, on the pair of the native array and the
list of the slots `CopyTo` has been called on so far. -/
def CopyToObjcArray.step {M N : Type} (copyTo : M → N → N) (frm : List M)
    (st : (Nat → Option N) × List Nat) (i : Nat) : (Nat → Option N) × List Nat :=
  match frm[i]? with
  | some m => (Function.update st.1 i ((st.1 i).map (copyTo m)), st.2 ++ [i])
  | none => st

/-- The loop of `CopyToObjcArray<MTLARRAY_TYPE, RDMTL_TYPE>(to, from)` with the calls it
makes: the native array afterwards and the slots `from[i].CopyTo(to->object(i))` was
called on, in order. -/
def CopyToObjcArray.run {M N : Type} (copyTo : M → N → N) (dst : Nat → Option N)
    (frm : List M) : (Nat → Option N) × List Nat :=
  (List.range frm.length).foldl (CopyToObjcArray.step copyTo frm) (dst, [])

/-- `CopyToObjcArray<MTLARRAY_TYPE, RDMTL_TYPE>(to, from)`: the native array afterwards. -/
def CopyToObjcArray {M N : Type} (copyTo : M → N → N) (dst : Nat → Option N)
    (frm : List M) : Nat → Option N :=
  (CopyToObjcArray.run copyTo dst frm).1

/-- The slots `CopyToObjcArray` calls `CopyTo` on, in order. -/
def CopyToObjcArray.calls {M N : Type} (copyTo : M → N → N) (dst : Nat → Option N)
    (frm : List M) : List Nat :=
  (CopyToObjcArray.run copyTo dst frm).2

/-! ## Element mirrors -/

/-- `ValidData(MTL::VertexAttributeDescriptor *)`. -/
def ValidData.VertexAttributeDescriptor (attr : MTL.VertexAttributeDescriptor) : Bool :=
  if attr.format = MTL.VertexFormatInvalid then false else true

/-- `ValidData(MTL::VertexBufferLayoutDescriptor *)`. -/
def ValidData.VertexBufferLayoutDescriptor (layout : MTL.VertexBufferLayoutDescriptor) :
    Bool :=
  if layout.stride = 0 then false else true

/-- `ValidData(MTL::PipelineBufferDescriptor *)`. -/
def ValidData.PipelineBufferDescriptor (descriptor : MTL.PipelineBufferDescriptor) : Bool :=
  if descriptor.mutability = MTL.MutabilityDefault then false else true

/-- `ValidData(MTL::RenderPipelineColorAttachmentDescriptor *)`. -/
def ValidData.RenderPipelineColorAttachmentDescriptor
    (descriptor : MTL.RenderPipelineColorAttachmentDescriptor) : Bool :=
  if descriptor.pixelFormat = MTL.PixelFormatInvalid then false else true

/-- `GetWrappedNSArray<MTL_TYPE>(to, from)`. -/
def GetWrappedNSArray {W P : Type} (GetWrapped : Option P → Option W) (dst : List (Option W))
    (src : NS.Array (Option P)) : List (Option W) :=
  let count := NS.Array.count src
  (List.range count).foldl (fun a i => a.set i (GetWrapped (NS.Array.object src i)))
    (rdcarray.resize none dst count)

/-- `CreateUnwrappedNSArray<MTL_TYPE>(from)`. -/
def CreateUnwrappedNSArray {W P : Type} (Unwrap : Option W → Option P)
    (frm : List (Option W)) : NS.Array (Option P) :=
  let count := frm.length
  if count ≠ 0 then
    let unwrapped := (List.range count).foldl (fun a i => a.set i (Unwrap (frm.getD i none)))
      (List.replicate count none)
    NS.Array.array unwrapped unwrapped.length
  else none

/-- `RDMTL::TextureDescriptor`. -/
structure TextureDescriptor where
  textureType : Nat
  pixelFormat : Nat
  width : Nat
  height : Nat
  depth : Nat
  mipmapLevelCount : Nat
  sampleCount : Nat
  arrayLength : Nat
  resourceOptions : Nat
  cpuCacheMode : Nat
  storageMode : Nat
  hazardTrackingMode : Nat
  usage : Nat
  allowGPUOptimizedContents : Bool
  swizzle : MTL.TextureSwizzleChannels
deriving DecidableEq, Repr

/-- `TextureDescriptor::TextureDescriptor(MTL::TextureDescriptor *objc)`. -/
def TextureDescriptor.ctor (objc : MTL.TextureDescriptor) : TextureDescriptor :=
  { textureType := objc.textureType
    pixelFormat := objc.pixelFormat
    width := objc.width
    height := objc.height
    depth := objc.depth
    mipmapLevelCount := objc.mipmapLevelCount
    sampleCount := objc.sampleCount
    arrayLength := objc.arrayLength
    resourceOptions := objc.resourceOptions
    cpuCacheMode := objc.cpuCacheMode
    storageMode := objc.storageMode
    hazardTrackingMode := objc.hazardTrackingMode
    usage := objc.usage
    allowGPUOptimizedContents := objc.allowGPUOptimizedContents
    swizzle := objc.swizzle }

/-- `TextureDescriptor::operator MTL::TextureDescriptor *()`; `init` is the object that
`MTL::TextureDescriptor::alloc()->init()` returns. -/
def TextureDescriptor.operatorMTL (init : MTL.TextureDescriptor) (self : TextureDescriptor) :
    MTL.TextureDescriptor :=
  let objc := init
  let objc := { objc with textureType := self.textureType }
  let objc := { objc with pixelFormat := self.pixelFormat }
  let objc := { objc with width := self.width }
  let objc := { objc with height := self.height }
  let objc := { objc with depth := self.depth }
  let objc := { objc with mipmapLevelCount := self.mipmapLevelCount }
  let objc := { objc with sampleCount := self.sampleCount }
  let objc := { objc with arrayLength := self.arrayLength }
  let objc := { objc with resourceOptions := self.resourceOptions }
  let objc := { objc with cpuCacheMode := self.cpuCacheMode }
  let objc := { objc with storageMode := self.storageMode }
  let objc := { objc with hazardTrackingMode := self.hazardTrackingMode }
  let objc := { objc with usage := self.usage }
  let objc := { objc with allowGPUOptimizedContents := self.allowGPUOptimizedContents }
  let objc := { objc with swizzle := self.swizzle }
  objc

/-- `RDMTL::RenderPipelineColorAttachmentDescriptor`. -/
structure RenderPipelineColorAttachmentDescriptor where
  pixelFormat : Nat
  blendingEnabled : Bool
  sourceRGBBlendFactor : Nat
  destinationRGBBlendFactor : Nat
  rgbBlendOperation : Nat
  sourceAlphaBlendFactor : Nat
  destinationAlphaBlendFactor : Nat
  alphaBlendOperation : Nat
  writeMask : Nat
deriving DecidableEq, Repr

/-- `RenderPipelineColorAttachmentDescriptor::RenderPipelineColorAttachmentDescriptor(objc)`,
member initialiser by member initialiser. -/
def RenderPipelineColorAttachmentDescriptor.ctor
    (objc : MTL.RenderPipelineColorAttachmentDescriptor) :
    RenderPipelineColorAttachmentDescriptor :=
  { pixelFormat := objc.pixelFormat
    blendingEnabled := objc.blendingEnabled
    sourceRGBBlendFactor := objc.sourceAlphaBlendFactor
    destinationRGBBlendFactor := objc.destinationRGBBlendFactor
    rgbBlendOperation := objc.rgbBlendOperation
    sourceAlphaBlendFactor := objc.sourceAlphaBlendFactor
    destinationAlphaBlendFactor := objc.destinationAlphaBlendFactor
    alphaBlendOperation := objc.alphaBlendOperation
    writeMask := objc.writeMask }

/-- `RenderPipelineColorAttachmentDescriptor::CopyTo(objc)`. -/
def RenderPipelineColorAttachmentDescriptor.CopyTo
    (self : RenderPipelineColorAttachmentDescriptor)
    (objc : MTL.RenderPipelineColorAttachmentDescriptor) :
    MTL.RenderPipelineColorAttachmentDescriptor :=
  let objc := { objc with pixelFormat := self.pixelFormat }
  let objc := { objc with blendingEnabled := self.blendingEnabled }
  let objc := { objc with sourceRGBBlendFactor := self.sourceRGBBlendFactor }
  let objc := { objc with destinationRGBBlendFactor := self.destinationRGBBlendFactor }
  let objc := { objc with rgbBlendOperation := self.rgbBlendOperation }
  let objc := { objc with sourceAlphaBlendFactor := self.sourceAlphaBlendFactor }
  let objc := { objc with destinationAlphaBlendFactor := self.destinationAlphaBlendFactor }
  let objc := { objc with alphaBlendOperation := self.alphaBlendOperation }
  let objc := { objc with writeMask := self.writeMask }
  objc

/-- `RDMTL::PipelineBufferDescriptor`. -/
structure PipelineBufferDescriptor where
  mutability : Nat
deriving DecidableEq, Repr

/-- `PipelineBufferDescriptor::PipelineBufferDescriptor(objc)`. -/
def PipelineBufferDescriptor.ctor (objc : MTL.PipelineBufferDescriptor) :
    PipelineBufferDescriptor :=
  { mutability := objc.mutability }

/-- `PipelineBufferDescriptor::CopyTo(objc)`. -/
def PipelineBufferDescriptor.CopyTo (self : PipelineBufferDescriptor)
    (objc : MTL.PipelineBufferDescriptor) : MTL.PipelineBufferDescriptor :=
  { objc with mutability := self.mutability }

/-- `RDMTL::VertexAttributeDescriptor`. -/
structure VertexAttributeDescriptor where
  format : Nat
  offset : Nat
  bufferIndex : Nat
deriving DecidableEq, Repr

/-- `VertexAttributeDescriptor::VertexAttributeDescriptor(objc)`. -/
def VertexAttributeDescriptor.ctor (objc : MTL.VertexAttributeDescriptor) :
    VertexAttributeDescriptor :=
  { format := objc.format, offset := objc.offset, bufferIndex := objc.bufferIndex }

/-- `VertexAttributeDescriptor::CopyTo(objc)`. -/
def VertexAttributeDescriptor.CopyTo (self : VertexAttributeDescriptor)
    (objc : MTL.VertexAttributeDescriptor) : MTL.VertexAttributeDescriptor :=
  let objc := { objc with format := self.format }
  let objc := { objc with offset := self.offset }
  let objc := { objc with bufferIndex := self.bufferIndex }
  objc

/-- `RDMTL::VertexBufferLayoutDescriptor`. -/
structure VertexBufferLayoutDescriptor where
  stride : Nat
  stepFunction : Nat
  stepRate : Nat
deriving DecidableEq, Repr

/-- `VertexBufferLayoutDescriptor::VertexBufferLayoutDescriptor(objc)`. -/
def VertexBufferLayoutDescriptor.ctor (objc : MTL.VertexBufferLayoutDescriptor) :
    VertexBufferLayoutDescriptor :=
  { stride := objc.stride, stepFunction := objc.stepFunction, stepRate := objc.stepRate }

/-- `VertexBufferLayoutDescriptor::CopyTo(objc)`. -/
def VertexBufferLayoutDescriptor.CopyTo (self : VertexBufferLayoutDescriptor)
    (objc : MTL.VertexBufferLayoutDescriptor) : MTL.VertexBufferLayoutDescriptor :=
  let objc := { objc with stride := self.stride }
  let objc := { objc with stepFunction := self.stepFunction }
  let objc := { objc with stepRate := self.stepRate }
  objc

/-! ## Declarations of the headers -/

/-- The declarations of `metal_types.h` and `metal_resources.h` that the code uses and that
are not among the source files: the slot counts, the default-constructed element mirrors,
and the two directions of the wrapper association. -/
structure Declarations where
  MAX_VERTEX_SHADER_ATTRIBUTES : Nat
  MAX_RENDER_PASS_COLOR_ATTACHMENTS : Nat
  MAX_RENDER_PASS_BUFFER_ATTACHMENTS : Nat
  /-- The default-constructed `RDMTL::VertexBufferLayoutDescriptor`. -/
  defaultLayout : VertexBufferLayoutDescriptor
  /-- The default-constructed `RDMTL::VertexAttributeDescriptor`. -/
  defaultAttribute : VertexAttributeDescriptor
  /-- The default-constructed `RDMTL::RenderPipelineColorAttachmentDescriptor`. -/
  defaultColorAttachment : RenderPipelineColorAttachmentDescriptor
  /-- The default-constructed `RDMTL::PipelineBufferDescriptor`. -/
  defaultBuffer : PipelineBufferDescriptor
  /-- `GetWrapped(MTL::Function *)`. -/
  GetWrapped : Option MTL.Function → Option WrappedMTLFunction
  /-- `Unwrap(WrappedMTLFunction *)`. -/
  Unwrap : Option WrappedMTLFunction → Option MTL.Function
  /-- `NS::Dictionary::dictionary(objects, keys, count)` of the host runtime. -/
  dictionary : List (NS.Array (Option MTL.Function)) → List String → Nat →
    Option (NS.Dictionary (NS.Array (Option MTL.Function)))

/-! ## Vertex descriptor -/

/-- `RDMTL::VertexDescriptor`. -/
structure VertexDescriptor where
  layouts : List VertexBufferLayoutDescriptor
  attributes : List VertexAttributeDescriptor
deriving DecidableEq, Repr

/-- `VertexDescriptor::VertexDescriptor(MTL::VertexDescriptor *objc)`. -/
def VertexDescriptor.ctor (h : Declarations) (objc : Option MTL.VertexDescriptor) :
    VertexDescriptor :=
  let layouts := GetObjcArray h.MAX_VERTEX_SHADER_ATTRIBUTES h.defaultLayout
    VertexBufferLayoutDescriptor.ctor [] (MTL.VertexDescriptor.layoutsOf objc)
    ValidData.VertexBufferLayoutDescriptor
  let attributes := GetObjcArray h.MAX_VERTEX_SHADER_ATTRIBUTES h.defaultAttribute
    VertexAttributeDescriptor.ctor [] (MTL.VertexDescriptor.attributesOf objc)
    ValidData.VertexAttributeDescriptor
  { layouts := layouts, attributes := attributes }

/-- `VertexDescriptor::CopyTo(MTL::VertexDescriptor *objc)` on a descriptor object. -/
def VertexDescriptor.CopyTo (self : VertexDescriptor) (objc : MTL.VertexDescriptor) :
    MTL.VertexDescriptor :=
  let objc := { objc with
    layouts := CopyToObjcArray VertexBufferLayoutDescriptor.CopyTo objc.layouts self.layouts }
  let objc := { objc with
    attributes :=
      CopyToObjcArray VertexAttributeDescriptor.CopyTo objc.attributes self.attributes }
  objc

/-! ## Linked functions -/

/-- `RDMTL::FunctionGroups`: a call site name and the functions of its group. A
default-constructed one has an empty name and no functions. -/
structure FunctionGroups where
  callsite : String := ""
  functions : List (Option WrappedMTLFunction) := []
deriving DecidableEq, Repr

/-- `RDMTL::LinkedFunctions`. -/
structure LinkedFunctions where
  functions : List (Option WrappedMTLFunction) := []
  binaryFunctions : List (Option WrappedMTLFunction) := []
  groups : List FunctionGroups := []
  privateFunctions : List (Option WrappedMTLFunction) := []
deriving DecidableEq, Repr

/-- The body of the loop over the keys in `LinkedFunctions::LinkedFunctions`. -/
def LinkedFunctions.ctor.step (h : Declarations)
    (objcGroups : Option (NS.Dictionary (NS.Array (Option MTL.Function))))
    (keys : List String) (groups : List FunctionGroups) (i : Nat) : List FunctionGroups :=
  let key := keys.getD i ""
  let funcs := NS.Dictionary.object objcGroups key
  let countFuncs := NS.Array.count funcs
  let funcGroup := groups.getD i {}
  let funcGroup := { funcGroup with callsite := rdcstr.assign key }
  let funcGroup := { funcGroup with
    functions := rdcarray.resize none funcGroup.functions countFuncs }
  let funcGroup := { funcGroup with
    functions := (List.range countFuncs).foldl
      (fun a j => a.set j (h.GetWrapped (NS.Array.object funcs j))) funcGroup.functions }
  groups.set i funcGroup

/-- `LinkedFunctions::LinkedFunctions(MTL::LinkedFunctions *objc)`; the getters answer null
through a null `objc`. -/
def LinkedFunctions.ctor (h : Declarations) (objc : Option MTL.LinkedFunctions) :
    LinkedFunctions :=
  let functions := GetWrappedNSArray h.GetWrapped [] (objc.bind fun o => o.functions)
  let binaryFunctions :=
    GetWrappedNSArray h.GetWrapped [] (objc.bind fun o => o.binaryFunctions)
  let objcGroups := objc.bind fun o => o.groups
  let keys := NS.Dictionary.allKeys objcGroups
  let countKeys := keys.length
  let groups := rdcarray.resize {} [] countKeys
  let groups := (List.range countKeys).foldl (LinkedFunctions.ctor.step h objcGroups keys) groups
  let privateFunctions :=
    GetWrappedNSArray h.GetWrapped [] (objc.bind fun o => o.privateFunctions)
  { functions := functions, binaryFunctions := binaryFunctions, groups := groups,
    privateFunctions := privateFunctions }

/-- The body of the loop over the groups in `LinkedFunctions::CopyTo`, on the pair of the
`values` and the `keys` arrays. -/
def LinkedFunctions.CopyTo.step (h : Declarations) (groups : List FunctionGroups)
    (vk : List (NS.Array (Option MTL.Function)) × List String) (i : Nat) :
    List (NS.Array (Option MTL.Function)) × List String :=
  let funcGroup := groups.getD i {}
  let keys := vk.2.set i funcGroup.callsite
  let values := vk.1.set i (CreateUnwrappedNSArray h.Unwrap funcGroup.functions)
  (values, keys)

/-- The dictionary `inGroups` that `LinkedFunctions::CopyTo` passes to `setGroups`. -/
def LinkedFunctions.CopyTo.inGroups (h : Declarations) (self : LinkedFunctions) :
    Option (NS.Dictionary (NS.Array (Option MTL.Function))) :=
  let countKeys := self.groups.length
  if countKeys ≠ 0 then
    let vk := (List.range countKeys).foldl (LinkedFunctions.CopyTo.step h self.groups)
      (List.replicate countKeys none, List.replicate countKeys "")
    h.dictionary vk.1 vk.2 countKeys
  else none

/-- `LinkedFunctions::CopyTo(MTL::LinkedFunctions *objc)` on a table object. -/
def LinkedFunctions.CopyTo (h : Declarations) (self : LinkedFunctions)
    (objc : MTL.LinkedFunctions) : MTL.LinkedFunctions :=
  let objc := { objc with functions := CreateUnwrappedNSArray h.Unwrap self.functions }
  let objc := { objc with
    binaryFunctions := CreateUnwrappedNSArray h.Unwrap self.binaryFunctions }
  let objc := { objc with groups := LinkedFunctions.CopyTo.inGroups h self }
  let objc := { objc with
    privateFunctions := CreateUnwrappedNSArray h.Unwrap self.privateFunctions }
  objc

/-! ## Render pipeline descriptor -/

/-- `RDMTL::RenderPipelineDescriptor`. -/
structure RenderPipelineDescriptor where
  label : String
  vertexFunction : Option WrappedMTLFunction
  fragmentFunction : Option WrappedMTLFunction
  vertexDescriptor : VertexDescriptor
  sampleCount : Nat
  rasterSampleCount : Nat
  alphaToCoverageEnabled : Bool
  alphaToOneEnabled : Bool
  rasterizationEnabled : Bool
  maxVertexAmplificationCount : Nat
  colorAttachments : List RenderPipelineColorAttachmentDescriptor
  depthAttachmentPixelFormat : Nat
  stencilAttachmentPixelFormat : Nat
  inputPrimitiveTopology : Nat
  tessellationPartitionMode : Nat
  maxTessellationFactor : Nat
  tessellationFactorScaleEnabled : Bool
  tessellationFactorFormat : Nat
  tessellationControlPointIndexType : Nat
  tessellationFactorStepFunction : Nat
  tessellationOutputWindingOrder : Nat
  vertexBuffers : List PipelineBufferDescriptor
  fragmentBuffers : List PipelineBufferDescriptor
  supportIndirectCommandBuffers : Bool
  vertexLinkedFunctions : LinkedFunctions
  fragmentLinkedFunctions : LinkedFunctions
  supportAddingVertexBinaryFunctions : Bool
  supportAddingFragmentBinaryFunctions : Bool
  maxVertexCallStackDepth : Nat
  maxFragmentCallStackDepth : Nat
deriving DecidableEq, Repr

/-- `RenderPipelineDescriptor::RenderPipelineDescriptor(MTL::RenderPipelineDescriptor *objc)`:
the member initialisers, then the body. -/
def RenderPipelineDescriptor.ctor (h : Declarations) (objc : MTL.RenderPipelineDescriptor) :
    RenderPipelineDescriptor :=
  let label : String :=
    match objc.label with
    | some s => rdcstr.assign s
    | none => ""
  let colorAttachments := GetObjcArray h.MAX_RENDER_PASS_COLOR_ATTACHMENTS
    h.defaultColorAttachment RenderPipelineColorAttachmentDescriptor.ctor []
    objc.colorAttachments ValidData.RenderPipelineColorAttachmentDescriptor
  let vertexBuffers := GetObjcArray h.MAX_RENDER_PASS_BUFFER_ATTACHMENTS h.defaultBuffer
    PipelineBufferDescriptor.ctor [] objc.vertexBuffers ValidData.PipelineBufferDescriptor
  let fragmentBuffers := GetObjcArray h.MAX_RENDER_PASS_BUFFER_ATTACHMENTS h.defaultBuffer
    PipelineBufferDescriptor.ctor [] objc.fragmentBuffers ValidData.PipelineBufferDescriptor
  { label := label
    vertexFunction := h.GetWrapped objc.vertexFunction
    fragmentFunction := h.GetWrapped objc.fragmentFunction
    vertexDescriptor := VertexDescriptor.ctor h objc.vertexDescriptor
    sampleCount := objc.sampleCount
    rasterSampleCount := objc.rasterSampleCount
    alphaToCoverageEnabled := objc.alphaToCoverageEnabled
    alphaToOneEnabled := objc.alphaToOneEnabled
    rasterizationEnabled := objc.rasterizationEnabled
    maxVertexAmplificationCount := objc.maxVertexAmplificationCount
    colorAttachments := colorAttachments
    depthAttachmentPixelFormat := objc.depthAttachmentPixelFormat
    stencilAttachmentPixelFormat := objc.stencilAttachmentPixelFormat
    inputPrimitiveTopology := objc.inputPrimitiveTopology
    tessellationPartitionMode := objc.tessellationPartitionMode
    maxTessellationFactor := objc.maxTessellationFactor
    tessellationFactorScaleEnabled := objc.tessellationFactorScaleEnabled
    tessellationFactorFormat := objc.tessellationFactorFormat
    tessellationControlPointIndexType := objc.tessellationControlPointIndexType
    tessellationFactorStepFunction := objc.tessellationFactorStepFunction
    tessellationOutputWindingOrder := objc.tessellationOutputWindingOrder
    vertexBuffers := vertexBuffers
    fragmentBuffers := fragmentBuffers
    supportIndirectCommandBuffers := objc.supportIndirectCommandBuffers
    vertexLinkedFunctions := LinkedFunctions.ctor h objc.vertexLinkedFunctions
    fragmentLinkedFunctions := LinkedFunctions.ctor h objc.fragmentLinkedFunctions
    supportAddingVertexBinaryFunctions := objc.supportAddingVertexBinaryFunctions
    supportAddingFragmentBinaryFunctions := objc.supportAddingFragmentBinaryFunctions
    maxVertexCallStackDepth := objc.maxVertexCallStackDepth
    maxFragmentCallStackDepth := objc.maxFragmentCallStackDepth }

/-- `RenderPipelineDescriptor::operator MTL::RenderPipelineDescriptor *()`; `init` is the
object that `MTL::RenderPipelineDescriptor::alloc()->init()` returns.  Every setter writes
a property of its own, so the sequence of setter calls is one record update. -/
def RenderPipelineDescriptor.operatorMTL (h : Declarations)
    (init : MTL.RenderPipelineDescriptor) (self : RenderPipelineDescriptor) :
    MTL.RenderPipelineDescriptor :=
  { init with
    label := if self.label.length > 0 then some self.label else init.label
    vertexFunction := h.Unwrap self.vertexFunction
    fragmentFunction := h.Unwrap self.fragmentFunction
    vertexDescriptor := init.vertexDescriptor.map self.vertexDescriptor.CopyTo
    sampleCount := self.sampleCount
    rasterSampleCount := self.rasterSampleCount
    alphaToCoverageEnabled := self.alphaToCoverageEnabled
    alphaToOneEnabled := self.alphaToOneEnabled
    rasterizationEnabled := self.rasterizationEnabled
    maxVertexAmplificationCount := self.maxVertexAmplificationCount
    colorAttachments := CopyToObjcArray RenderPipelineColorAttachmentDescriptor.CopyTo
      init.colorAttachments self.colorAttachments
    depthAttachmentPixelFormat := self.depthAttachmentPixelFormat
    stencilAttachmentPixelFormat := self.stencilAttachmentPixelFormat
    inputPrimitiveTopology := self.inputPrimitiveTopology
    tessellationPartitionMode := self.tessellationPartitionMode
    maxTessellationFactor := self.maxTessellationFactor
    tessellationFactorScaleEnabled := self.tessellationFactorScaleEnabled
    tessellationFactorFormat := self.tessellationFactorFormat
    tessellationControlPointIndexType := self.tessellationControlPointIndexType
    tessellationFactorStepFunction := self.tessellationFactorStepFunction
    tessellationOutputWindingOrder := self.tessellationOutputWindingOrder
    vertexBuffers :=
      CopyToObjcArray PipelineBufferDescriptor.CopyTo init.vertexBuffers self.vertexBuffers
    fragmentBuffers :=
      CopyToObjcArray PipelineBufferDescriptor.CopyTo init.fragmentBuffers
        self.fragmentBuffers
    supportIndirectCommandBuffers := self.supportIndirectCommandBuffers
    vertexLinkedFunctions :=
      init.vertexLinkedFunctions.map (self.vertexLinkedFunctions.CopyTo h)
    fragmentLinkedFunctions :=
      init.fragmentLinkedFunctions.map (self.fragmentLinkedFunctions.CopyTo h)
    supportAddingVertexBinaryFunctions := self.supportAddingVertexBinaryFunctions
    supportAddingFragmentBinaryFunctions := self.supportAddingFragmentBinaryFunctions
    maxVertexCallStackDepth := self.maxVertexCallStackDepth
    maxFragmentCallStackDepth := self.maxFragmentCallStackDepth }

/-! ## Example inputs -/

/-- Header declarations used by the examples: four slots of each kind, default-constructed
element mirrors that the validity predicates reject, wrappers numbered one above their
native function, and a dictionary that enumerates its keys in reverse. -/
def exampleDeclarations : Declarations :=
  { MAX_VERTEX_SHADER_ATTRIBUTES := 4
    MAX_RENDER_PASS_COLOR_ATTACHMENTS := 4
    MAX_RENDER_PASS_BUFFER_ATTACHMENTS := 4
    defaultLayout := { stride := 0, stepFunction := 1, stepRate := 1 }
    defaultAttribute := { format := 0, offset := 0, bufferIndex := 0 }
    defaultColorAttachment :=
      { pixelFormat := 0, blendingEnabled := false, sourceRGBBlendFactor := 1,
        destinationRGBBlendFactor := 0, rgbBlendOperation := 0, sourceAlphaBlendFactor := 1,
        destinationAlphaBlendFactor := 0, alphaBlendOperation := 0, writeMask := 15 }
    defaultBuffer := { mutability := 0 }
    GetWrapped := fun f => f.map fun x => { id := x.handle + 1 }
    Unwrap := fun w => w.map fun x => { handle := x.id - 1 }
    dictionary := fun values keys count => some { entries := ((keys.zip values).take count).reverse } }

/-- A native layout array whose slots 1 and 3 hold strides 16 and 32 and whose other slots
hold the unset layout. -/
def sparseLayouts : Nat → Option MTL.VertexBufferLayoutDescriptor := fun i =>
  if i = 1 then some { stride := 16, stepFunction := 1, stepRate := 1 }
  else if i = 3 then some { stride := 32, stepFunction := 2, stepRate := 4 }
  else some { stride := 0, stepFunction := 1, stepRate := 1 }

/-- A fresh native layout array: every slot holds the unset layout. -/
def freshLayouts : Nat → Option MTL.VertexBufferLayoutDescriptor := fun _ =>
  some { stride := 0, stepFunction := 1, stepRate := 1 }

/-- A native attribute array whose slots 1 and 3 hold formats 28 and 30 and whose other
slots hold the unset attribute. -/
def sparseAttributes : Nat → Option MTL.VertexAttributeDescriptor := fun i =>
  if i = 1 then some { format := 28, offset := 0, bufferIndex := 0 }
  else if i = 3 then some { format := 30, offset := 12, bufferIndex := 1 }
  else some { format := 0, offset := 0, bufferIndex := 0 }

/-- A fresh native attribute array: every slot holds the unset attribute. -/
def freshAttributes : Nat → Option MTL.VertexAttributeDescriptor := fun _ =>
  some { format := 0, offset := 0, bufferIndex := 0 }

/-- A native vertex descriptor with valid layouts and attributes at the slots 1 and 3. -/
def sparseVertexDescriptor : MTL.VertexDescriptor :=
  { layouts := sparseLayouts, attributes := sparseAttributes }

/-- A fresh native vertex descriptor. -/
def freshVertexDescriptor : MTL.VertexDescriptor :=
  { layouts := freshLayouts, attributes := freshAttributes }

/-- A set native colour attachment with different source blend factors for colour (4) and
alpha (1). -/
def exampleColorAttachment : MTL.RenderPipelineColorAttachmentDescriptor :=
  { pixelFormat := 80, blendingEnabled := true, sourceRGBBlendFactor := 4,
    destinationRGBBlendFactor := 5, rgbBlendOperation := 0, sourceAlphaBlendFactor := 1,
    destinationAlphaBlendFactor := 0, alphaBlendOperation := 0, writeMask := 15 }

/-- The unset native colour attachment, as a fresh slot holds it. -/
def unsetColorAttachment : MTL.RenderPipelineColorAttachmentDescriptor :=
  { pixelFormat := 0, blendingEnabled := false, sourceRGBBlendFactor := 1,
    destinationRGBBlendFactor := 0, rgbBlendOperation := 0, sourceAlphaBlendFactor := 1,
    destinationAlphaBlendFactor := 0, alphaBlendOperation := 0, writeMask := 15 }

/-- A native colour attachment array whose slot 1 alone holds a set attachment. -/
def sparseColorAttachments : Nat → Option MTL.RenderPipelineColorAttachmentDescriptor :=
  fun i => if i = 1 then some exampleColorAttachment else some unsetColorAttachment

/-- A fresh native colour attachment array: every slot holds the unset attachment. -/
def freshColorAttachments : Nat → Option MTL.RenderPipelineColorAttachmentDescriptor :=
  fun _ => some unsetColorAttachment

/-- A native buffer array whose slot 2 alone has a mutability that is not the default. -/
def sparseBuffers : Nat → Option MTL.PipelineBufferDescriptor := fun i =>
  if i = 2 then some { mutability := 1 } else some { mutability := 0 }

/-- A fresh native buffer array: every slot has the default mutability. -/
def freshBuffers : Nat → Option MTL.PipelineBufferDescriptor := fun _ =>
  some { mutability := 0 }

/-- A native linked function table with the groups `a ↦ [f1]` and `b ↦ [f2, f3]`. -/
def exampleNativeLinkedFunctions : MTL.LinkedFunctions :=
  { functions := some [some { handle := 1 }]
    binaryFunctions := none
    groups := some { entries := [("a", some [some { handle := 1 }]),
                                 ("b", some [some { handle := 2 }, some { handle := 3 }])] }
    privateFunctions := none }

/-- A fresh native linked function table. -/
def freshLinkedFunctions : MTL.LinkedFunctions :=
  { functions := none, binaryFunctions := none, groups := none, privateFunctions := none }

/-- A native render pipeline descriptor with a label, a vertex function and no fragment
function, and sparse slot arrays. -/
def examplePipeline : MTL.RenderPipelineDescriptor :=
  { label := some "main pass"
    vertexFunction := some { handle := 7 }
    fragmentFunction := none
    vertexDescriptor := some sparseVertexDescriptor
    sampleCount := 4
    rasterSampleCount := 4
    alphaToCoverageEnabled := true
    alphaToOneEnabled := false
    rasterizationEnabled := true
    maxVertexAmplificationCount := 2
    colorAttachments := sparseColorAttachments
    depthAttachmentPixelFormat := 252
    stencilAttachmentPixelFormat := 253
    inputPrimitiveTopology := 3
    tessellationPartitionMode := 1
    maxTessellationFactor := 16
    tessellationFactorScaleEnabled := true
    tessellationFactorFormat := 0
    tessellationControlPointIndexType := 2
    tessellationFactorStepFunction := 1
    tessellationOutputWindingOrder := 1
    vertexBuffers := sparseBuffers
    fragmentBuffers := freshBuffers
    supportIndirectCommandBuffers := true
    vertexLinkedFunctions := some exampleNativeLinkedFunctions
    fragmentLinkedFunctions := some freshLinkedFunctions
    supportAddingVertexBinaryFunctions := true
    supportAddingFragmentBinaryFunctions := false
    maxVertexCallStackDepth := 3
    maxFragmentCallStackDepth := 5 }

/-- A fresh native render pipeline descriptor: no label, no functions, unset slots. -/
def freshPipeline : MTL.RenderPipelineDescriptor :=
  { label := none
    vertexFunction := none
    fragmentFunction := none
    vertexDescriptor := some freshVertexDescriptor
    sampleCount := 1
    rasterSampleCount := 1
    alphaToCoverageEnabled := false
    alphaToOneEnabled := false
    rasterizationEnabled := true
    maxVertexAmplificationCount := 1
    colorAttachments := freshColorAttachments
    depthAttachmentPixelFormat := 0
    stencilAttachmentPixelFormat := 0
    inputPrimitiveTopology := 0
    tessellationPartitionMode := 0
    maxTessellationFactor := 16
    tessellationFactorScaleEnabled := false
    tessellationFactorFormat := 0
    tessellationControlPointIndexType := 0
    tessellationFactorStepFunction := 0
    tessellationOutputWindingOrder := 0
    vertexBuffers := freshBuffers
    fragmentBuffers := freshBuffers
    supportIndirectCommandBuffers := false
    vertexLinkedFunctions := some freshLinkedFunctions
    fragmentLinkedFunctions := some freshLinkedFunctions
    supportAddingVertexBinaryFunctions := false
    supportAddingFragmentBinaryFunctions := false
    maxVertexCallStackDepth := 1
    maxFragmentCallStackDepth := 1 }

/-- A linked function mirror with the groups `a ↦ [f1]` and `b ↦ [f2, f3]`. -/
def exampleLinkedFunctions : LinkedFunctions :=
  { groups := [{ callsite := "a", functions := [some { id := 1 }] },
               { callsite := "b", functions := [some { id := 2 }, some { id := 3 }] }] }

/-- A linked function mirror whose only group `a` has no functions. -/
def emptyGroupLinkedFunctions : LinkedFunctions :=
  { groups := [{ callsite := "a", functions := [] }] }

/-- Header declarations whose dictionary constructor takes no null object, as the one of
the host runtime, which raises on one: given a null value among the first `count` values
it makes no dictionary; otherwise the dictionary holds the pairs in the given order. -/
def refusingDeclarations : Declarations :=
  { exampleDeclarations with
    dictionary := fun values keys count =>
      if (values.take count).all Option.isSome then
        some { entries := (keys.zip values).take count }
      else none }

/-- A native linked function table whose only group `a` is an array without elements. -/
def emptyGroupNativeLinkedFunctions : MTL.LinkedFunctions :=
  { functions := none
    binaryFunctions := none
    groups := some { entries := [("a", some [])] }
    privateFunctions := none }

/-- A native linked function table whose only key holds a NUL character after its first
character. -/
def nulKeyNativeLinkedFunctions : MTL.LinkedFunctions :=
  { functions := none
    binaryFunctions := none
    groups := some { entries := [("a\x00b", some [some { handle := 1 }])] }
    privateFunctions := none }

/-- The example pipeline with a label that holds a NUL character after `ab`. -/
def nulLabelPipeline : MTL.RenderPipelineDescriptor :=
  { examplePipeline with label := some "ab\x00cd" }

end RDMTL

/-! ## Fatal errors -/

/-- Modelled from the spec: `RDCFATAL(...)` of the common headers, which are not among the
source files ("the system terminates the operation abnormally with a diagnostic rather than
attempting recovery"): the operation ends with the diagnostic and produces no result. -/
def RDCFATAL {α : Type} (diagnostic : String) : Except String α :=
  Except.error diagnostic

/-! ## Cross-runtime bridge (`DEFINE_OBJC_HELPERS`) -/

/-- The primitives of the host runtime that `AllocateObjCBridge` calls to find a class. -/
structure ObjCRuntime where
  /-- `objc_lookUpClass(name)`: the class, `none` being `Nil`. -/
  objc_lookUpClass : String → Option Nat
  /-- `class_getInstanceSize(cls)`. -/
  class_getInstanceSize : Option Nat → Nat

/-- A call of `AllocateObjCBridge` into the host runtime that changes it. -/
inductive ObjCCall where
  /-- `objc_setAssociatedObject(object, key, value, OBJC_ASSOCIATION_RETAIN)`. -/
  | objc_setAssociatedObject (object : Nat) (key : Nat) (value : Nat)
  /-- `object->release()`. -/
  | release (object : Nat)
deriving DecidableEq, Repr

/-- The part of a `WrappedMTL<CPPTYPE>` that `AllocateObjCBridge` reads and writes. Its
address is the address of `m_ObjcBridge`, which is at offset 0. -/
structure WrappedMTL where
  /-- The address of the wrapper. -/
  address : Nat
  /-- The reserved storage `m_ObjcBridge`, holding a class or null. -/
  m_ObjcBridge : Option Nat
  /-- The real native object `m_Real`, or null. -/
  m_Real : Option Nat
deriving DecidableEq, Repr

/-- The function-local statics `klass` and `classSize` of one `AllocateObjCBridge`. -/
structure BridgeStatics where
  klass : Option Nat
  classSize : Nat
deriving DecidableEq, Repr

/-- `AllocateObjCBridge(WrappedMTL<CPPTYPE> *wrappedCPP)` as `DEFINE_OBJC_HELPERS(CPPTYPE)`
defines it. `sizeofObjcBridge` is `sizeof(wrappedCPP->m_ObjcBridge)`; `statics` are the
function-local statics, `none` before the first call, which initialises them. The result is
the wrapper, the statics and the calls into the host runtime, or the fatal error. -/
def AllocateObjCBridge (rt : ObjCRuntime) (CPPTYPE : String) (sizeofObjcBridge : Nat)
    (statics : Option BridgeStatics) (wrappedCPP : WrappedMTL) :
    Except String (WrappedMTL × BridgeStatics × List ObjCCall) :=
  let className := "ObjCBridgeMTL" ++ CPPTYPE
  let st : BridgeStatics :=
    match statics with
    | some s => s
    | none =>
      let klass := rt.objc_lookUpClass className
      { klass := klass, classSize := rt.class_getInstanceSize klass }
  if st.classSize ≠ sizeofObjcBridge then
    RDCFATAL ("'" ++ className ++ "' classSize != sizeof(m_ObjcBridge) " ++
      toString st.classSize ++ " != " ++ toString sizeofObjcBridge)
  else
    let wrappedCPP := { wrappedCPP with m_ObjcBridge := st.klass }
    match wrappedCPP.m_Real with
    | some real =>
      let objc := wrappedCPP.address
      Except.ok (wrappedCPP, st,
        [ObjCCall.objc_setAssociatedObject real objc objc, ObjCCall.release objc])
    | none => Except.ok (wrappedCPP, st, [])

/-! ## Device wrapper (`metal_device.cpp`) -/

/-- A `ResourceId`. -/
abbrev ResourceId := Nat

/-- Modelled from the spec: the identity registry of a resource manager, which is not among
the source files ("the id→wrapper mapping"): the registered pairs of an id and the address
of a wrapper, latest first. -/
structure MetalResourceManager where
  currentResources : List (ResourceId × Nat) := []
deriving DecidableEq, Repr

/-- Modelled from the spec: `Lookup(ResourceId) -> WrappedObject*|not-found` of the
registry, which is not among the source files. -/
def MetalResourceManager.GetCurrentResource (rm : MetalResourceManager) (id : ResourceId) :
    Option Nat :=
  (rm.currentResources.find? fun e => e.1 == id).map Prod.snd

/-- Modelled from the spec: `AddCurrentResource(id, res)`, the `RegisterObject` of the
registry, which is not among the source files ("records a new mapping; fails if the id
already exists", which "is treated as fatal"). -/
def MetalResourceManager.AddCurrentResource (rm : MetalResourceManager) (id : ResourceId)
    (res : Nat) : Except String MetalResourceManager :=
  if (rm.GetCurrentResource id).isSome then RDCFATAL "resource id already registered"
  else Except.ok { currentResources := (id, res) :: rm.currentResources }

/-- The members of a `WrappedMTLDevice` that its constructor and `Construct` write; the
first four are those of the base `WrappedMTLObject`. Storage that no constructor has run on
holds the default values. -/
structure WrappedMTLDevice where
  m_Real : Option Nat := none
  m_ID : ResourceId := 0
  m_WrappedMTLDevice : Option Nat := none
  m_State : Nat := 0
  wrappedObjC : Option Nat := none
  objc : Option Nat := none
  threadSerialiserTLSSlot : Option Nat := none
  m_ResourceManager : Option MetalResourceManager := none
deriving DecidableEq, Repr

/-- An effect of the construction of a device wrapper outside the wrapper itself, or the
storing of the real handle. -/
inductive DeviceEvent where
  /-- The base constructor `WrappedMTLObject(real, objId, this, state)` stores the handle. -/
  | WrappedMTLObject (this : Nat) (real : Option Nat) (objId : ResourceId)
  /-- A call `AllocateObjCWrapper(this)`. -/
  | AllocateObjCWrapper (this : Nat)
  /-- A call `Threading::AllocateTLSSlot()`. -/
  | AllocateTLSSlot
  /-- An evaluation of `new MetalResourceManager(m_State, this)`. -/
  | MetalResourceManager (this : Nat)
  /-- A call `AddCurrentResource(objId, this)`. -/
  | AddCurrentResource (objId : ResourceId) (this : Nat)
deriving DecidableEq, Repr

/-- The functions `metal_device.cpp` calls that are not among the source files. -/
structure DeviceDeclarations where
  /-- `AllocateObjCWrapper(this)`, given the number of wrappers allocated before: the
  companion object, or the fatal error of the bridge. -/
  AllocateObjCWrapper : Nat → Nat → Except String Nat
  /-- `ResourceIDGen::GetNewUniqueID()`, given the number of ids issued before. -/
  GetNewUniqueID : Nat → ResourceId
  /-- `GetStateRef()`. -/
  GetStateRef : Nat
  /-- `UnwrapObjC<MTL::Device *>(wrapped)`: the bridged handle of a wrapper. -/
  UnwrapObjC : WrappedMTLDevice → Option Nat

/-- The state outside the wrapper under construction: the wrappers that `new` has made, by
address, the counters of the allocators and of the id generator, and the effects so far. -/
structure DeviceWorld where
  heap : List WrappedMTLDevice := []
  objcWrappers : Nat := 0
  tlsSlots : Nat := 0
  idsIssued : Nat := 0
  trace : List DeviceEvent := []
deriving DecidableEq, Repr

/-- Modelled from the spec: the base constructor `WrappedMTLObject(real, objId, device,
state)`, which is not among the source files ("stores the handle", "holds its ResourceId",
"holds a back-reference to the device"). -/
def WrappedMTLObject.ctor (w : DeviceWorld) (this : Nat) (self : WrappedMTLDevice)
    (real : Option Nat) (objId : ResourceId) (wrappedMTLDevice : Nat) (state : Nat) :
    DeviceWorld × WrappedMTLDevice :=
  ({ w with trace := w.trace ++ [DeviceEvent.WrappedMTLObject this real objId] },
   { self with m_Real := real, m_ID := objId, m_WrappedMTLDevice := some wrappedMTLDevice,
               m_State := state })

/-- `WrappedMTLDevice::Construct()`: the world and the wrapper afterwards, and the fatal
error if there was one. -/
def WrappedMTLDevice.Construct (env : DeviceDeclarations) (w : DeviceWorld) (this : Nat)
    (self : WrappedMTLDevice) : DeviceWorld × WrappedMTLDevice × Option String :=
  let w := { w with trace := w.trace ++ [DeviceEvent.AllocateObjCWrapper this] }
  match env.AllocateObjCWrapper w.objcWrappers this with
  | Except.error e => (w, self, some e)
  | Except.ok o =>
    let w := { w with objcWrappers := w.objcWrappers + 1 }
    let self := { self with objc := some o }
    let self := { self with m_WrappedMTLDevice := some this }
    let slot := w.tlsSlots
    let w := { w with tlsSlots := w.tlsSlots + 1,
                      trace := w.trace ++ [DeviceEvent.AllocateTLSSlot] }
    let self := { self with threadSerialiserTLSSlot := some slot }
    let w := { w with trace := w.trace ++ [DeviceEvent.MetalResourceManager this] }
    let self := { self with m_ResourceManager := some {} }
    (w, self, none)

/-- `WrappedMTLDevice::WrappedMTLDevice(MTL::Device *realMTLDevice, ResourceId objId)` on the
storage `self` at address `this`: the world and the wrapper afterwards, and the fatal error
if there was one. `GetResourceManager()` is the resource manager of the device itself. -/
def WrappedMTLDevice.ctor (env : DeviceDeclarations) (w : DeviceWorld) (this : Nat)
    (self : WrappedMTLDevice) (realMTLDevice : Option Nat) (objId : ResourceId) :
    DeviceWorld × WrappedMTLDevice × Option String :=
  let (w, self) := WrappedMTLObject.ctor w this self realMTLDevice objId this env.GetStateRef
  let w := { w with trace := w.trace ++ [DeviceEvent.AllocateObjCWrapper this] }
  match env.AllocateObjCWrapper w.objcWrappers this with
  | Except.error e => (w, self, some e)
  | Except.ok o =>
    let w := { w with objcWrappers := w.objcWrappers + 1 }
    let self := { self with wrappedObjC := some o }
    match WrappedMTLDevice.Construct env w this self with
    | (w, self, some e) => (w, self, some e)
    | (w, self, none) =>
      let w := { w with trace := w.trace ++ [DeviceEvent.AddCurrentResource objId this] }
      match self.m_ResourceManager with
      | none => (w, self, some "null resource manager")
      | some rm =>
        match rm.AddCurrentResource objId this with
        | Except.error e => (w, self, some e)
        | Except.ok rm => (w, { self with m_ResourceManager := some rm }, none)

/-- `WrappedMTLDevice::MTLCreateSystemDefaultDevice(MTL::Device *realMTLDevice)`: the world
afterwards, and the bridged handle or the fatal error. The wrapper that `new` makes is put
at the next address of the heap. -/
def WrappedMTLDevice.MTLCreateSystemDefaultDevice (env : DeviceDeclarations)
    (w : DeviceWorld) (realMTLDevice : Option Nat) : DeviceWorld × Except String (Option Nat) :=
  let objId := env.GetNewUniqueID w.idsIssued
  let w := { w with idsIssued := w.idsIssued + 1 }
  let this := w.heap.length
  match WrappedMTLDevice.ctor env w this {} realMTLDevice objId with
  | (w, self, some e) => ({ w with heap := w.heap ++ [self] }, Except.error e)
  | (w, self, none) => ({ w with heap := w.heap ++ [self] }, Except.ok (env.UnwrapObjC self))

/-- A sequence of calls of `MTLCreateSystemDefaultDevice`, one per real device of the list,
up to the first fatal error: the world afterwards, and the handles or the fatal error. -/
def createDevices (env : DeviceDeclarations) (w : DeviceWorld) :
    List (Option Nat) → DeviceWorld × Except String (List (Option Nat))
  | [] => (w, Except.ok [])
  | real :: reals =>
    match WrappedMTLDevice.MTLCreateSystemDefaultDevice env w real with
    | (w, Except.error e) => (w, Except.error e)
    | (w, Except.ok handle) =>
      match createDevices env w reals with
      | (w, Except.error e) => (w, Except.error e)
      | (w, Except.ok handles) => (w, Except.ok (handle :: handles))

/-! ## Example inputs of the bridge and of the device -/

/-- A host runtime that knows the class `ObjCBridgeMTLDevice`, of instance size 8. -/
def exampleRuntime : ObjCRuntime :=
  { objc_lookUpClass := fun name => if name = "ObjCBridgeMTLDevice" then some 500 else none
    class_getInstanceSize := fun cls => if cls = some 500 then 8 else 0 }

/-- Declarations for the device: the bridge never fails and returns the handle 1000 plus
the number of wrappers allocated before, the ids issued are 1, 2, 3, and so on, and the
bridged handle of a wrapper is its member `objc`. -/
def exampleDeviceDeclarations : DeviceDeclarations :=
  { AllocateObjCWrapper := fun n _ => Except.ok (1000 + n)
    GetNewUniqueID := fun n => n + 1
    GetStateRef := 0
    UnwrapObjC := fun d => d.objc }

/-- Declarations for the device with a bridge that fails fatally at every call. -/
def failingDeviceDeclarations : DeviceDeclarations :=
  { AllocateObjCWrapper := fun _ _ => Except.error "classSize != sizeof(m_ObjcBridge)"
    GetNewUniqueID := fun n => n + 1
    GetStateRef := 0
    UnwrapObjC := fun d => d.objc }


/-! # Theorems -/

namespace RDMTL

/-! ## Mirror strings -/

theorem rdcstr.assign_eq_self (s : String) (hs : Char.ofNat 0 ∉ s.data) :
    rdcstr.assign s = s := by
  unfold rdcstr.assign
  have ht : s.data.takeWhile (fun c => c != Char.ofNat 0) = s.data := by
    rw [List.takeWhile_eq_self_iff]
    intro c hc
    simp only [bne_iff_ne, ne_eq]
    intro hc0
    exact hs (hc0 ▸ hc)
  rw [ht]

theorem string_length_pos_iff (s : String) : s.length > 0 ↔ s ≠ "" := by
  constructor
  · intro hp hc
    rw [hc] at hp
    exact absurd hp (by decide)
  · intro hne
    rcases Nat.eq_zero_or_pos s.length with h0 | h0
    · exact absurd (String.ext (List.length_eq_zero.mp h0)) hne
    · exact h0

/-! ## The slot array loops -/

theorem resize_for_index_of_le {T : Type} (dflt : T) (a : List T) (i : Nat)
    (h : a.length ≤ i) :
    rdcarray.resize_for_index dflt a i = a ++ List.replicate (i + 1 - a.length) dflt := by
  unfold rdcarray.resize_for_index rdcarray.resize
  rw [if_pos h, List.take_of_length_le (by omega)]

theorem mirrorAt_of_not_accepted {M N : Type} (dflt : M) (mk : N → M) (src : Nat → Option N)
    (validData : N → Bool) (i : Nat) (h : accepted src validData i = false) :
    mirrorAt dflt mk src validData i = dflt := by
  unfold accepted at h
  unfold mirrorAt
  cases hs : src i with
  | none => rfl
  | some el => simp [hs] at h; simp [h]

theorem GetObjcArray.inv_step {M N : Type} (dflt : M) (mk : N → M) (src : Nat → Option N)
    (validData : N → Bool) (k : Nat) (out : List M)
    (h : GetObjcArray.Inv dflt mk src validData k out) :
    GetObjcArray.Inv dflt mk src validData (k + 1)
      (GetObjcArray.step dflt mk src validData out k) := by
  obtain ⟨hlen, hacc, hlast, hent⟩ := h
  have hrej : ∀ hk : accepted src validData k = false,
      GetObjcArray.step dflt mk src validData out k = out := by
    intro hk
    unfold accepted at hk
    unfold GetObjcArray.step
    cases hs : src k with
    | none => rfl
    | some el => simp [hs] at hk; simp [hk]
  cases hk : accepted src validData k with
  | false =>
    rw [hrej hk]
    refine ⟨by omega, ?_, hlast, hent⟩
    intro i hi hai
    rcases Nat.lt_succ_iff_lt_or_eq.mp hi with h1 | h1
    · exact hacc i h1 hai
    · subst h1; rw [hk] at hai; cases hai
  | true =>
    obtain ⟨el, hs, hv⟩ : ∃ el, src k = some el ∧ validData el = true := by
      unfold accepted at hk
      cases hs : src k with
      | none => simp [hs] at hk
      | some el => exact ⟨el, rfl, by simpa [hs] using hk⟩
    have hstep : GetObjcArray.step dflt mk src validData out k
        = (out ++ List.replicate (k + 1 - out.length) dflt).set k (mk el) := by
      unfold GetObjcArray.step
      simp only [hs, hv, if_true]
      rw [resize_for_index_of_le dflt out k hlen]
    have hl : (GetObjcArray.step dflt mk src validData out k).length = k + 1 := by
      rw [hstep]; simp; omega
    refine ⟨by omega, ?_, ?_, ?_⟩
    · intro i hi _; omega
    · intro _; rw [hl]; simpa using hk
    · intro i hi
      rw [hl] at hi
      rw [hstep]
      by_cases hik : i = k
      · subst hik
        rw [List.getElem?_set_self (by simp; omega)]
        simp [mirrorAt, hs, hv]
      · rw [List.getElem?_set_ne (by omega)]
        by_cases hil : i < out.length
        · rw [List.getElem?_append_left hil]
          exact hent i hil
        · rw [List.getElem?_append_right (by omega)]
          have hna : accepted src validData i = false := by
            cases ha : accepted src validData i with
            | false => rfl
            | true => exact absurd (hacc i (by omega) ha) hil
          rw [mirrorAt_of_not_accepted dflt mk src validData i hna]
          rw [List.getElem?_replicate]
          simp; omega

theorem GetObjcArray.inv {M N : Type} (dflt : M) (mk : N → M) (src : Nat → Option N)
    (validData : N → Bool) (k : Nat) :
    GetObjcArray.Inv dflt mk src validData k (GetObjcArray k dflt mk [] src validData) := by
  induction k with
  | zero => simp [GetObjcArray, GetObjcArray.Inv]
  | succ k ih =>
    have : GetObjcArray (k + 1) dflt mk [] src validData
        = GetObjcArray.step dflt mk src validData (GetObjcArray k dflt mk [] src validData) k := by
      simp [GetObjcArray, List.range_succ, List.foldl_append]
    rw [this]
    exact GetObjcArray.inv_step dflt mk src validData k _ ih

theorem CopyToObjcArray.run_prefix {M N : Type} (copyTo : M → N → N)
    (dst : Nat → Option N) (frm : List M) (k : Nat) (hk : k ≤ frm.length) :
    ((List.range k).foldl (CopyToObjcArray.step copyTo frm) (dst, [])).2 = List.range k ∧
    (∀ i m, i < k → frm[i]? = some m →
      ((List.range k).foldl (CopyToObjcArray.step copyTo frm) (dst, [])).1 i
        = (dst i).map (copyTo m)) ∧
    (∀ i, k ≤ i →
      ((List.range k).foldl (CopyToObjcArray.step copyTo frm) (dst, [])).1 i = dst i) := by
  induction k with
  | zero => simp
  | succ k ih =>
    obtain ⟨ih1, ih2, ih3⟩ := ih (by omega)
    obtain ⟨mk, hmk⟩ : ∃ mk, frm[k]? = some mk :=
      ⟨frm[k], List.getElem?_eq_getElem (by omega)⟩
    have hstep : (List.range (k + 1)).foldl (CopyToObjcArray.step copyTo frm) (dst, [])
        = (Function.update
            ((List.range k).foldl (CopyToObjcArray.step copyTo frm) (dst, [])).1 k
            ((((List.range k).foldl (CopyToObjcArray.step copyTo frm) (dst, [])).1 k).map
              (copyTo mk)),
           ((List.range k).foldl (CopyToObjcArray.step copyTo frm) (dst, [])).2 ++ [k]) := by
      rw [List.range_succ, List.foldl_append]
      simp [CopyToObjcArray.step, hmk]
    rw [hstep]
    refine ⟨?_, ?_, ?_⟩
    · simp [ih1, List.range_succ]
    · intro i m hi hm
      by_cases hik : i = k
      · subst hik
        rw [hmk] at hm
        cases hm
        simp [ih3 i (le_refl _)]
      · simp only [Function.update_noteq hik]
        exact ih2 i m (by omega) hm
    · intro i hi
      have hik : i ≠ k := by omega
      simp only [Function.update_noteq hik]
      exact ih3 i (by omega)

theorem CopyToObjcArray.calls_eq {M N : Type} (copyTo : M → N → N) (dst : Nat → Option N)
    (frm : List M) : CopyToObjcArray.calls copyTo dst frm = List.range frm.length :=
  (CopyToObjcArray.run_prefix copyTo dst frm frm.length (le_refl _)).1

theorem CopyToObjcArray.apply_of_lt {M N : Type} (copyTo : M → N → N)
    (dst : Nat → Option N) (frm : List M) (i : Nat) (m : M) (hm : frm[i]? = some m) :
    CopyToObjcArray copyTo dst frm i = (dst i).map (copyTo m) := by
  have hi : i < frm.length := by
    by_contra hge
    rw [List.getElem?_eq_none (by omega)] at hm
    cases hm
  exact (CopyToObjcArray.run_prefix copyTo dst frm frm.length (le_refl _)).2.1 i m hi hm

theorem CopyToObjcArray.apply_of_ge {M N : Type} (copyTo : M → N → N)
    (dst : Nat → Option N) (frm : List M) (i : Nat) (hi : frm.length ≤ i) :
    CopyToObjcArray copyTo dst frm i = dst i :=
  (CopyToObjcArray.run_prefix copyTo dst frm frm.length (le_refl _)).2.2 i hi

/-- Ingest then export of one slot array, slot by slot. -/
theorem roundtrip_slot {M N : Type} (MAX_COUNT : Nat) (dflt : M) (mk : N → M)
    (copyTo : M → N → N) (src dst : Nat → Option N) (validData : N → Bool) (i : Nat) :
    CopyToObjcArray copyTo dst (GetObjcArray MAX_COUNT dflt mk [] src validData) i =
      if i < (GetObjcArray MAX_COUNT dflt mk [] src validData).length then
        (dst i).map (copyTo (mirrorAt dflt mk src validData i))
      else dst i := by
  obtain ⟨_, _, _, hent⟩ := GetObjcArray.inv dflt mk src validData MAX_COUNT
  split
  · next hi => exact CopyToObjcArray.apply_of_lt copyTo dst _ i _ (hent i hi)
  · next hi => exact CopyToObjcArray.apply_of_ge copyTo dst _ i (by omega)

/-- Ingest then export of one slot array at an accepted slot. -/
theorem roundtrip_slot_accepted {M N : Type} (MAX_COUNT : Nat) (dflt : M) (mk : N → M)
    (copyTo : M → N → N) (src dst : Nat → Option N) (validData : N → Bool) (i : Nat)
    (hi : i < MAX_COUNT) (el : N) (hs : src i = some el) (hv : validData el = true) :
    CopyToObjcArray copyTo dst (GetObjcArray MAX_COUNT dflt mk [] src validData) i =
      (dst i).map (copyTo (mk el)) := by
  obtain ⟨_, hacc, _, _⟩ := GetObjcArray.inv dflt mk src validData MAX_COUNT
  have ha : accepted src validData i = true := by simp [accepted, hs, hv]
  rw [roundtrip_slot, if_pos (hacc i hi ha)]
  simp [mirrorAt, hs, hv]

/-- Ingest then export of one slot array at a rejected slot. -/
theorem roundtrip_slot_rejected {M N : Type} (MAX_COUNT : Nat) (dflt : M) (mk : N → M)
    (copyTo : M → N → N) (src dst : Nat → Option N) (validData : N → Bool) (i : Nat)
    (ha : accepted src validData i = false) :
    CopyToObjcArray copyTo dst (GetObjcArray MAX_COUNT dflt mk [] src validData) i =
      if i < (GetObjcArray MAX_COUNT dflt mk [] src validData).length then
        (dst i).map (copyTo dflt)
      else dst i := by
  rw [roundtrip_slot, mirrorAt_of_not_accepted dflt mk src validData i ha]

/-- C1. Sparse ingest: `GetObjcArray` on an empty mirror array yields an array that holds
every accepted slot below `MAX_COUNT`, whose last entry (when there is one) is an accepted
slot below `MAX_COUNT`, so that its length is the highest accepted index plus one, or 0 when
no slot is accepted; entry `i` is the mirror of native element `i` when that element is
present and valid and the default-valued entry otherwise. With accepted elements `e1` and
`e3` at exactly the slots 1 and 3 the array is `[default, mirror e1, default, mirror e3]`. -/
theorem C1_GetObjcArray_sparse_ingest {M N : Type} (MAX_COUNT : Nat) (dflt : M) (mk : N → M)
    (src : Nat → Option N) (validData : N → Bool) :
    (∀ i, i < MAX_COUNT → accepted src validData i = true →
      i < (GetObjcArray MAX_COUNT dflt mk [] src validData).length) ∧
    ((GetObjcArray MAX_COUNT dflt mk [] src validData).length ≠ 0 →
      (GetObjcArray MAX_COUNT dflt mk [] src validData).length - 1 < MAX_COUNT ∧
      accepted src validData
        ((GetObjcArray MAX_COUNT dflt mk [] src validData).length - 1) = true) ∧
    ((∀ i, i < MAX_COUNT → accepted src validData i = false) →
      (GetObjcArray MAX_COUNT dflt mk [] src validData).length = 0) ∧
    (∀ i, i < (GetObjcArray MAX_COUNT dflt mk [] src validData).length →
      (GetObjcArray MAX_COUNT dflt mk [] src validData)[i]? =
        some (mirrorAt dflt mk src validData i)) ∧
    (∀ e1 e3, src 1 = some e1 → src 3 = some e3 → 3 < MAX_COUNT →
      (∀ i, i < MAX_COUNT → (accepted src validData i = true ↔ i = 1 ∨ i = 3)) →
      GetObjcArray MAX_COUNT dflt mk [] src validData = [dflt, mk e1, dflt, mk e3]) := by
  obtain ⟨hlen, hacc, hlast, hent⟩ := GetObjcArray.inv dflt mk src validData MAX_COUNT
  have hlast2 : (GetObjcArray MAX_COUNT dflt mk [] src validData).length ≠ 0 →
      (GetObjcArray MAX_COUNT dflt mk [] src validData).length - 1 < MAX_COUNT ∧
      accepted src validData
        ((GetObjcArray MAX_COUNT dflt mk [] src validData).length - 1) = true :=
    fun h0 => ⟨by omega, hlast h0⟩
  refine ⟨hacc, hlast2, ?_, hent, ?_⟩
  · intro hnone
    by_contra h0
    obtain ⟨hlt, ha⟩ := hlast2 h0
    rw [hnone _ hlt] at ha
    cases ha
  · intro e1 e3 h1 h3 hM hiff
    have hv1 : accepted src validData 1 = true := (hiff 1 (by omega)).2 (Or.inl rfl)
    have hv3 : accepted src validData 3 = true := (hiff 3 (by omega)).2 (Or.inr rfl)
    have hge : 3 < (GetObjcArray MAX_COUNT dflt mk [] src validData).length :=
      hacc 3 hM hv3
    have hle : (GetObjcArray MAX_COUNT dflt mk [] src validData).length ≤ 4 := by
      by_contra hgt
      obtain ⟨hlt, ha⟩ := hlast2 (by omega)
      rcases (hiff _ hlt).1 ha with h | h <;> omega
    have hl4 : (GetObjcArray MAX_COUNT dflt mk [] src validData).length = 4 := by omega
    have hn0 : accepted src validData 0 = false := by
      cases ha : accepted src validData 0 with
      | false => rfl
      | true => rcases (hiff 0 (by omega)).1 ha with h | h <;> omega
    have hn2 : accepted src validData 2 = false := by
      cases ha : accepted src validData 2 with
      | false => rfl
      | true => rcases (hiff 2 (by omega)).1 ha with h | h <;> omega
    have m1 : mirrorAt dflt mk src validData 1 = mk e1 := by
      have : validData e1 = true := by simpa [accepted, h1] using hv1
      simp [mirrorAt, h1, this]
    have m3 : mirrorAt dflt mk src validData 3 = mk e3 := by
      have : validData e3 = true := by simpa [accepted, h3] using hv3
      simp [mirrorAt, h3, this]
    apply List.ext_getElem?
    intro i
    by_cases hi : i < 4
    · rw [hent i (by omega)]
      interval_cases i
      · rw [mirrorAt_of_not_accepted dflt mk src validData 0 hn0]; rfl
      · rw [m1]; rfl
      · rw [mirrorAt_of_not_accepted dflt mk src validData 2 hn2]; rfl
      · rw [m3]; rfl
    · rw [List.getElem?_eq_none (by omega), List.getElem?_eq_none (by simp; omega)]

/-- C1, on the layout array with strides 16 and 32 at the slots 1 and 3 of four. -/
theorem C1_GetObjcArray_sparse_ingest_witness :
    GetObjcArray 4 exampleDeclarations.defaultLayout VertexBufferLayoutDescriptor.ctor []
        sparseLayouts ValidData.VertexBufferLayoutDescriptor =
      [{ stride := 0, stepFunction := 1, stepRate := 1 },
       { stride := 16, stepFunction := 1, stepRate := 1 },
       { stride := 0, stepFunction := 1, stepRate := 1 },
       { stride := 32, stepFunction := 2, stepRate := 4 }] :=
  (C1_GetObjcArray_sparse_ingest 4 exampleDeclarations.defaultLayout
    VertexBufferLayoutDescriptor.ctor sparseLayouts
    ValidData.VertexBufferLayoutDescriptor).2.2.2.2
    { stride := 16, stepFunction := 1, stepRate := 1 }
    { stride := 32, stepFunction := 2, stepRate := 4 } rfl rfl (by decide) (by decide)

/-- C2, as stated, fails: on the layout array with valid elements at the slots 1 and 3 only,
export after ingest calls `CopyTo` on the slots 0, 1, 2 and 3, and the slots 0 and 2 were
not accepted on ingest. -/
theorem C2_CopyToObjcArray_writes_only_accepted_counterexample :
    CopyToObjcArray.calls VertexBufferLayoutDescriptor.CopyTo freshLayouts
        (GetObjcArray 4 exampleDeclarations.defaultLayout VertexBufferLayoutDescriptor.ctor []
          sparseLayouts ValidData.VertexBufferLayoutDescriptor) = [0, 1, 2, 3] ∧
    accepted sparseLayouts ValidData.VertexBufferLayoutDescriptor 0 = false ∧
    accepted sparseLayouts ValidData.VertexBufferLayoutDescriptor 2 = false ∧
    ¬ (∀ i, i ∈ CopyToObjcArray.calls VertexBufferLayoutDescriptor.CopyTo freshLayouts
        (GetObjcArray 4 exampleDeclarations.defaultLayout VertexBufferLayoutDescriptor.ctor []
          sparseLayouts ValidData.VertexBufferLayoutDescriptor) ↔
      accepted sparseLayouts ValidData.VertexBufferLayoutDescriptor i = true) := by
  have hc : CopyToObjcArray.calls VertexBufferLayoutDescriptor.CopyTo freshLayouts
        (GetObjcArray 4 exampleDeclarations.defaultLayout VertexBufferLayoutDescriptor.ctor []
          sparseLayouts ValidData.VertexBufferLayoutDescriptor) = [0, 1, 2, 3] := by decide
  refine ⟨hc, by decide, by decide, ?_⟩
  intro hall
  have h0 := (hall 0).1 (by rw [hc]; decide)
  revert h0
  decide

/-- C2, amended. Export after ingest calls `CopyTo` on the slots below the length of the
mirror array, each once and in increasing order: these include every accepted slot below
`MAX_COUNT`, and each of them is at or below an accepted slot. A slot that is called on
receives the mirror entry of that slot (the mirror of the native element when it was
accepted, the default-valued entry otherwise) when the target holds an element there; a slot
that is not called on is left as it was in the target array. -/
theorem C2_CopyToObjcArray_writes_mirror_prefix {M N : Type} (MAX_COUNT : Nat) (dflt : M)
    (mk : N → M) (copyTo : M → N → N) (src dst : Nat → Option N) (validData : N → Bool) :
    CopyToObjcArray.calls copyTo dst (GetObjcArray MAX_COUNT dflt mk [] src validData) =
      List.range (GetObjcArray MAX_COUNT dflt mk [] src validData).length ∧
    (∀ i, i < MAX_COUNT → accepted src validData i = true →
      i ∈ CopyToObjcArray.calls copyTo dst
        (GetObjcArray MAX_COUNT dflt mk [] src validData)) ∧
    (∀ i, i ∈ CopyToObjcArray.calls copyTo dst
        (GetObjcArray MAX_COUNT dflt mk [] src validData) →
      ∃ j, i ≤ j ∧ j < MAX_COUNT ∧ accepted src validData j = true) ∧
    (∀ i, i ∈ CopyToObjcArray.calls copyTo dst
        (GetObjcArray MAX_COUNT dflt mk [] src validData) →
      CopyToObjcArray copyTo dst (GetObjcArray MAX_COUNT dflt mk [] src validData) i =
        (dst i).map (copyTo (mirrorAt dflt mk src validData i))) ∧
    (∀ i, i ∉ CopyToObjcArray.calls copyTo dst
        (GetObjcArray MAX_COUNT dflt mk [] src validData) →
      CopyToObjcArray copyTo dst (GetObjcArray MAX_COUNT dflt mk [] src validData) i =
        dst i) := by
  obtain ⟨hlen, hacc, hlast, hent⟩ := GetObjcArray.inv dflt mk src validData MAX_COUNT
  rw [CopyToObjcArray.calls_eq]
  refine ⟨rfl, ?_, ?_, ?_, ?_⟩
  · intro i hi ha
    exact List.mem_range.mpr (hacc i hi ha)
  · intro i hi
    have hi2 := List.mem_range.mp hi
    exact ⟨_, by omega, by omega, hlast (by omega)⟩
  · intro i hi
    rw [roundtrip_slot, if_pos (List.mem_range.mp hi)]
  · intro i hi
    rw [roundtrip_slot, if_neg (fun h => hi (List.mem_range.mpr h))]

/-- C2, amended, on the layout array with valid elements at the slots 1 and 3 of four:
the gap slot 0 is called on and receives the default-valued layout, the slot 1 receives the
ingested layout, and the slot 4 is left alone. -/
theorem C2_CopyToObjcArray_writes_mirror_prefix_witness :
    0 ∈ CopyToObjcArray.calls VertexBufferLayoutDescriptor.CopyTo freshLayouts
        (GetObjcArray 4 exampleDeclarations.defaultLayout VertexBufferLayoutDescriptor.ctor []
          sparseLayouts ValidData.VertexBufferLayoutDescriptor) ∧
    CopyToObjcArray VertexBufferLayoutDescriptor.CopyTo freshLayouts
        (GetObjcArray 4 exampleDeclarations.defaultLayout VertexBufferLayoutDescriptor.ctor []
          sparseLayouts ValidData.VertexBufferLayoutDescriptor) 0 =
      some { stride := 0, stepFunction := 1, stepRate := 1 } ∧
    CopyToObjcArray VertexBufferLayoutDescriptor.CopyTo freshLayouts
        (GetObjcArray 4 exampleDeclarations.defaultLayout VertexBufferLayoutDescriptor.ctor []
          sparseLayouts ValidData.VertexBufferLayoutDescriptor) 1 =
      some { stride := 16, stepFunction := 1, stepRate := 1 } ∧
    CopyToObjcArray VertexBufferLayoutDescriptor.CopyTo freshLayouts
        (GetObjcArray 4 exampleDeclarations.defaultLayout VertexBufferLayoutDescriptor.ctor []
          sparseLayouts ValidData.VertexBufferLayoutDescriptor) 4 = freshLayouts 4 := by
  have h := C2_CopyToObjcArray_writes_mirror_prefix 4 exampleDeclarations.defaultLayout
    VertexBufferLayoutDescriptor.ctor VertexBufferLayoutDescriptor.CopyTo sparseLayouts
    freshLayouts ValidData.VertexBufferLayoutDescriptor
  have hc : CopyToObjcArray.calls VertexBufferLayoutDescriptor.CopyTo freshLayouts
        (GetObjcArray 4 exampleDeclarations.defaultLayout VertexBufferLayoutDescriptor.ctor []
          sparseLayouts ValidData.VertexBufferLayoutDescriptor) = [0, 1, 2, 3] := by decide
  refine ⟨by rw [hc]; decide, ?_, ?_, ?_⟩
  · rw [h.2.2.2.1 0 (by rw [hc]; decide)]; decide
  · rw [h.2.2.2.1 1 (by rw [hc]; decide)]; decide
  · exact h.2.2.2.2 4 (by rw [hc]; decide)

/-- Ingest then export of one slot array leaves a rejected slot rejected, when the target
slot is rejected and an element that the default-valued mirror entry was copied to is
rejected. -/
theorem roundtrip_slot_stays_rejected {M N : Type} (MAX_COUNT : Nat) (dflt : M) (mk : N → M)
    (copyTo : M → N → N) (src dst : Nat → Option N) (validData : N → Bool) (i : Nat)
    (hd : ∀ n, validData (copyTo dflt n) = false)
    (hf : accepted dst validData i = false) (ha : accepted src validData i = false) :
    accepted (CopyToObjcArray copyTo dst (GetObjcArray MAX_COUNT dflt mk [] src validData))
      validData i = false := by
  unfold accepted
  rw [roundtrip_slot_rejected MAX_COUNT dflt mk copyTo src dst validData i ha]
  split_ifs
  · cases hdi : dst i with
    | none => simp
    | some n => simp [hd]
  · exact hf

/-- C3. Vertex descriptor round trip on accepted slots: for a slot `i` below
`MAX_VERTEX_SHADER_ATTRIBUTES` at which the fresh descriptor holds an element, a layout of
`d` with a nonzero stride comes back at slot `i` of the fresh descriptor with the same
stride, step function and step rate, and an attribute of `d` whose format is not
`VertexFormatInvalid` comes back with the same format, offset and buffer index. -/
theorem C3_VertexDescriptor_roundtrip_accepted (h : Declarations)
    (d fresh : MTL.VertexDescriptor) (i : Nat) (hi : i < h.MAX_VERTEX_SHADER_ATTRIBUTES) :
    (∀ l f, d.layouts i = some l → l.stride ≠ 0 → fresh.layouts i = some f →
      ∃ l', ((VertexDescriptor.ctor h (some d)).CopyTo fresh).layouts i = some l' ∧
        l'.stride = l.stride ∧ l'.stepFunction = l.stepFunction ∧
        l'.stepRate = l.stepRate) ∧
    (∀ a f, d.attributes i = some a → a.format ≠ MTL.VertexFormatInvalid →
      fresh.attributes i = some f →
      ∃ a', ((VertexDescriptor.ctor h (some d)).CopyTo fresh).attributes i = some a' ∧
        a'.format = a.format ∧ a'.offset = a.offset ∧ a'.bufferIndex = a.bufferIndex) := by
  constructor
  · intro l f hl hs hf
    have hv : ValidData.VertexBufferLayoutDescriptor l = true := by
      simp [ValidData.VertexBufferLayoutDescriptor, hs]
    have := roundtrip_slot_accepted h.MAX_VERTEX_SHADER_ATTRIBUTES h.defaultLayout
      VertexBufferLayoutDescriptor.ctor VertexBufferLayoutDescriptor.CopyTo d.layouts
      fresh.layouts ValidData.VertexBufferLayoutDescriptor i hi l hl hv
    refine ⟨(VertexBufferLayoutDescriptor.ctor l).CopyTo f, ?_, rfl, rfl, rfl⟩
    show CopyToObjcArray VertexBufferLayoutDescriptor.CopyTo fresh.layouts
      (GetObjcArray h.MAX_VERTEX_SHADER_ATTRIBUTES h.defaultLayout
        VertexBufferLayoutDescriptor.ctor [] d.layouts
        ValidData.VertexBufferLayoutDescriptor) i = _
    rw [this, hf]
    rfl
  · intro a f hl hs hf
    have hv : ValidData.VertexAttributeDescriptor a = true := by
      simp [ValidData.VertexAttributeDescriptor, hs]
    have := roundtrip_slot_accepted h.MAX_VERTEX_SHADER_ATTRIBUTES h.defaultAttribute
      VertexAttributeDescriptor.ctor VertexAttributeDescriptor.CopyTo d.attributes
      fresh.attributes ValidData.VertexAttributeDescriptor i hi a hl hv
    refine ⟨(VertexAttributeDescriptor.ctor a).CopyTo f, ?_, rfl, rfl, rfl⟩
    show CopyToObjcArray VertexAttributeDescriptor.CopyTo fresh.attributes
      (GetObjcArray h.MAX_VERTEX_SHADER_ATTRIBUTES h.defaultAttribute
        VertexAttributeDescriptor.ctor [] d.attributes
        ValidData.VertexAttributeDescriptor) i = _
    rw [this, hf]
    rfl

/-- C3, on the example vertex descriptor at slot 3: its layout has stride 32 and its
attribute has format 30. -/
theorem C3_VertexDescriptor_roundtrip_accepted_witness :
    (∃ l', ((VertexDescriptor.ctor exampleDeclarations (some sparseVertexDescriptor)).CopyTo
          freshVertexDescriptor).layouts 3 = some l' ∧
        l'.stride = 32 ∧ l'.stepFunction = 2 ∧ l'.stepRate = 4) ∧
    (∃ a', ((VertexDescriptor.ctor exampleDeclarations (some sparseVertexDescriptor)).CopyTo
          freshVertexDescriptor).attributes 3 = some a' ∧
        a'.format = 30 ∧ a'.offset = 12 ∧ a'.bufferIndex = 1) :=
  ⟨(C3_VertexDescriptor_roundtrip_accepted exampleDeclarations sparseVertexDescriptor
      freshVertexDescriptor 3 (by decide)).1
      { stride := 32, stepFunction := 2, stepRate := 4 }
      { stride := 0, stepFunction := 1, stepRate := 1 } rfl (by decide) rfl,
   (C3_VertexDescriptor_roundtrip_accepted exampleDeclarations sparseVertexDescriptor
      freshVertexDescriptor 3 (by decide)).2
      { format := 30, offset := 12, bufferIndex := 1 }
      { format := 0, offset := 0, bufferIndex := 0 } rfl (by decide) rfl⟩

/-- C4. Rejected slots do not reappear. Let the default-constructed element mirrors and the
slot `i` of the fresh native descriptor be rejected by the validity predicates. For each of
the five slot arrays of a render pipeline descriptor `d` (vertex layouts, vertex attributes,
colour attachments, vertex buffers, fragment buffers), when the element of `d` at slot `i`
is absent or rejected, the element at slot `i` after ingest and export is rejected again,
and it is the fresh element with the default-valued mirror entry copied to it (below the
length of the mirror array) or the untouched fresh element: no value of it comes from the
element of `d`. -/
theorem C4_rejected_slots_do_not_reappear (h : Declarations)
    (d fresh : MTL.RenderPipelineDescriptor) (i : Nat)
    (hL : h.defaultLayout.stride = 0)
    (hA : h.defaultAttribute.format = MTL.VertexFormatInvalid)
    (hC : h.defaultColorAttachment.pixelFormat = MTL.PixelFormatInvalid)
    (hB : h.defaultBuffer.mutability = MTL.MutabilityDefault)
    (fL : accepted (MTL.VertexDescriptor.layoutsOf fresh.vertexDescriptor)
      ValidData.VertexBufferLayoutDescriptor i = false)
    (fA : accepted (MTL.VertexDescriptor.attributesOf fresh.vertexDescriptor)
      ValidData.VertexAttributeDescriptor i = false)
    (fC : accepted fresh.colorAttachments
      ValidData.RenderPipelineColorAttachmentDescriptor i = false)
    (fV : accepted fresh.vertexBuffers ValidData.PipelineBufferDescriptor i = false)
    (fF : accepted fresh.fragmentBuffers ValidData.PipelineBufferDescriptor i = false) :
    (accepted (MTL.VertexDescriptor.layoutsOf d.vertexDescriptor)
        ValidData.VertexBufferLayoutDescriptor i = false →
      accepted (MTL.VertexDescriptor.layoutsOf
          (RenderPipelineDescriptor.operatorMTL h fresh
            (RenderPipelineDescriptor.ctor h d)).vertexDescriptor)
        ValidData.VertexBufferLayoutDescriptor i = false ∧
      MTL.VertexDescriptor.layoutsOf
          (RenderPipelineDescriptor.operatorMTL h fresh
            (RenderPipelineDescriptor.ctor h d)).vertexDescriptor i =
        if i < (RenderPipelineDescriptor.ctor h d).vertexDescriptor.layouts.length then
          (MTL.VertexDescriptor.layoutsOf fresh.vertexDescriptor i).map
            h.defaultLayout.CopyTo
        else MTL.VertexDescriptor.layoutsOf fresh.vertexDescriptor i) ∧
    (accepted (MTL.VertexDescriptor.attributesOf d.vertexDescriptor)
        ValidData.VertexAttributeDescriptor i = false →
      accepted (MTL.VertexDescriptor.attributesOf
          (RenderPipelineDescriptor.operatorMTL h fresh
            (RenderPipelineDescriptor.ctor h d)).vertexDescriptor)
        ValidData.VertexAttributeDescriptor i = false ∧
      MTL.VertexDescriptor.attributesOf
          (RenderPipelineDescriptor.operatorMTL h fresh
            (RenderPipelineDescriptor.ctor h d)).vertexDescriptor i =
        if i < (RenderPipelineDescriptor.ctor h d).vertexDescriptor.attributes.length then
          (MTL.VertexDescriptor.attributesOf fresh.vertexDescriptor i).map
            h.defaultAttribute.CopyTo
        else MTL.VertexDescriptor.attributesOf fresh.vertexDescriptor i) ∧
    (accepted d.colorAttachments ValidData.RenderPipelineColorAttachmentDescriptor i = false →
      accepted (RenderPipelineDescriptor.operatorMTL h fresh
          (RenderPipelineDescriptor.ctor h d)).colorAttachments
        ValidData.RenderPipelineColorAttachmentDescriptor i = false ∧
      (RenderPipelineDescriptor.operatorMTL h fresh
          (RenderPipelineDescriptor.ctor h d)).colorAttachments i =
        if i < (RenderPipelineDescriptor.ctor h d).colorAttachments.length then
          (fresh.colorAttachments i).map h.defaultColorAttachment.CopyTo
        else fresh.colorAttachments i) ∧
    (accepted d.vertexBuffers ValidData.PipelineBufferDescriptor i = false →
      accepted (RenderPipelineDescriptor.operatorMTL h fresh
          (RenderPipelineDescriptor.ctor h d)).vertexBuffers
        ValidData.PipelineBufferDescriptor i = false ∧
      (RenderPipelineDescriptor.operatorMTL h fresh
          (RenderPipelineDescriptor.ctor h d)).vertexBuffers i =
        if i < (RenderPipelineDescriptor.ctor h d).vertexBuffers.length then
          (fresh.vertexBuffers i).map h.defaultBuffer.CopyTo
        else fresh.vertexBuffers i) ∧
    (accepted d.fragmentBuffers ValidData.PipelineBufferDescriptor i = false →
      accepted (RenderPipelineDescriptor.operatorMTL h fresh
          (RenderPipelineDescriptor.ctor h d)).fragmentBuffers
        ValidData.PipelineBufferDescriptor i = false ∧
      (RenderPipelineDescriptor.operatorMTL h fresh
          (RenderPipelineDescriptor.ctor h d)).fragmentBuffers i =
        if i < (RenderPipelineDescriptor.ctor h d).fragmentBuffers.length then
          (fresh.fragmentBuffers i).map h.defaultBuffer.CopyTo
        else fresh.fragmentBuffers i) := by
  have dL : ∀ n, ValidData.VertexBufferLayoutDescriptor (h.defaultLayout.CopyTo n) = false := by
    intro n; simp [ValidData.VertexBufferLayoutDescriptor, VertexBufferLayoutDescriptor.CopyTo, hL]
  have dA : ∀ n, ValidData.VertexAttributeDescriptor (h.defaultAttribute.CopyTo n) = false := by
    intro n; simp [ValidData.VertexAttributeDescriptor, VertexAttributeDescriptor.CopyTo, hA]
  have dC : ∀ n, ValidData.RenderPipelineColorAttachmentDescriptor
      (h.defaultColorAttachment.CopyTo n) = false := by
    intro n
    simp [ValidData.RenderPipelineColorAttachmentDescriptor,
      RenderPipelineColorAttachmentDescriptor.CopyTo, hC]
  have dB : ∀ n, ValidData.PipelineBufferDescriptor (h.defaultBuffer.CopyTo n) = false := by
    intro n; simp [ValidData.PipelineBufferDescriptor, PipelineBufferDescriptor.CopyTo, hB]
  refine ⟨?_, ?_, ?_, ?_, ?_⟩
  · intro ha
    cases hfv : fresh.vertexDescriptor with
    | none =>
      simp [RenderPipelineDescriptor.operatorMTL, hfv, MTL.VertexDescriptor.layoutsOf, accepted]
    | some fvd =>
      rw [hfv] at fL
      have e : MTL.VertexDescriptor.layoutsOf
          (RenderPipelineDescriptor.operatorMTL h fresh
            (RenderPipelineDescriptor.ctor h d)).vertexDescriptor =
          CopyToObjcArray VertexBufferLayoutDescriptor.CopyTo fvd.layouts
            (GetObjcArray h.MAX_VERTEX_SHADER_ATTRIBUTES h.defaultLayout
              VertexBufferLayoutDescriptor.ctor []
              (MTL.VertexDescriptor.layoutsOf d.vertexDescriptor)
              ValidData.VertexBufferLayoutDescriptor) := by
        simp [RenderPipelineDescriptor.operatorMTL, hfv, MTL.VertexDescriptor.layoutsOf,
          VertexDescriptor.CopyTo, RenderPipelineDescriptor.ctor, VertexDescriptor.ctor]
      rw [e]
      exact ⟨roundtrip_slot_stays_rejected _ _ _ _ _ _ _ i dL fL ha,
        roundtrip_slot_rejected _ _ _ _ _ _ _ i ha⟩
  · intro ha
    cases hfv : fresh.vertexDescriptor with
    | none =>
      simp [RenderPipelineDescriptor.operatorMTL, hfv, MTL.VertexDescriptor.attributesOf,
        accepted]
    | some fvd =>
      rw [hfv] at fA
      have e : MTL.VertexDescriptor.attributesOf
          (RenderPipelineDescriptor.operatorMTL h fresh
            (RenderPipelineDescriptor.ctor h d)).vertexDescriptor =
          CopyToObjcArray VertexAttributeDescriptor.CopyTo fvd.attributes
            (GetObjcArray h.MAX_VERTEX_SHADER_ATTRIBUTES h.defaultAttribute
              VertexAttributeDescriptor.ctor []
              (MTL.VertexDescriptor.attributesOf d.vertexDescriptor)
              ValidData.VertexAttributeDescriptor) := by
        simp [RenderPipelineDescriptor.operatorMTL, hfv, MTL.VertexDescriptor.attributesOf,
          VertexDescriptor.CopyTo, RenderPipelineDescriptor.ctor, VertexDescriptor.ctor]
      rw [e]
      exact ⟨roundtrip_slot_stays_rejected _ _ _ _ _ _ _ i dA fA ha,
        roundtrip_slot_rejected _ _ _ _ _ _ _ i ha⟩
  · intro ha
    exact ⟨roundtrip_slot_stays_rejected _ _ _ _ _ _ _ i dC fC ha,
      roundtrip_slot_rejected _ _ _ _ _ _ _ i ha⟩
  · intro ha
    exact ⟨roundtrip_slot_stays_rejected _ _ _ _ _ _ _ i dB fV ha,
      roundtrip_slot_rejected _ _ _ _ _ _ _ i ha⟩
  · intro ha
    exact ⟨roundtrip_slot_stays_rejected _ _ _ _ _ _ _ i dB fF ha,
      roundtrip_slot_rejected _ _ _ _ _ _ _ i ha⟩

/-- C4, on the example pipeline at slot 0, which every one of its five slot arrays
rejects: after the round trip through a fresh descriptor the slot is rejected again. -/
theorem C4_rejected_slots_do_not_reappear_witness :
    accepted (MTL.VertexDescriptor.layoutsOf
        (RenderPipelineDescriptor.operatorMTL exampleDeclarations freshPipeline
          (RenderPipelineDescriptor.ctor exampleDeclarations examplePipeline)).vertexDescriptor)
      ValidData.VertexBufferLayoutDescriptor 0 = false ∧
    accepted (MTL.VertexDescriptor.attributesOf
        (RenderPipelineDescriptor.operatorMTL exampleDeclarations freshPipeline
          (RenderPipelineDescriptor.ctor exampleDeclarations examplePipeline)).vertexDescriptor)
      ValidData.VertexAttributeDescriptor 0 = false ∧
    accepted (RenderPipelineDescriptor.operatorMTL exampleDeclarations freshPipeline
        (RenderPipelineDescriptor.ctor exampleDeclarations examplePipeline)).colorAttachments
      ValidData.RenderPipelineColorAttachmentDescriptor 0 = false ∧
    accepted (RenderPipelineDescriptor.operatorMTL exampleDeclarations freshPipeline
        (RenderPipelineDescriptor.ctor exampleDeclarations examplePipeline)).vertexBuffers
      ValidData.PipelineBufferDescriptor 0 = false ∧
    accepted (RenderPipelineDescriptor.operatorMTL exampleDeclarations freshPipeline
        (RenderPipelineDescriptor.ctor exampleDeclarations examplePipeline)).fragmentBuffers
      ValidData.PipelineBufferDescriptor 0 = false :=
  have t := C4_rejected_slots_do_not_reappear exampleDeclarations examplePipeline
    freshPipeline 0 rfl rfl rfl rfl (by decide) (by decide) (by decide) (by decide)
    (by decide)
  ⟨(t.1 (by decide)).1, (t.2.1 (by decide)).1, (t.2.2.1 (by decide)).1,
    (t.2.2.2.1 (by decide)).1, (t.2.2.2.2 (by decide)).1⟩

/-- C5, the code at the failing input: the mirror of a colour attachment whose source RGB
blend factor is 4 and whose source alpha blend factor is 1 has source RGB blend factor 1,
and so has the fresh attachment the mirror is copied to; the other eight fields are
those of the attachment. -/
theorem C5_color_attachment_sourceRGBBlendFactor_divergence :
    exampleColorAttachment.sourceRGBBlendFactor = 4 ∧
    exampleColorAttachment.sourceAlphaBlendFactor = 1 ∧
    (RenderPipelineColorAttachmentDescriptor.ctor
      exampleColorAttachment).sourceRGBBlendFactor = 1 ∧
    ((RenderPipelineColorAttachmentDescriptor.ctor exampleColorAttachment).CopyTo
      unsetColorAttachment).sourceRGBBlendFactor = 1 ∧
    (RenderPipelineColorAttachmentDescriptor.ctor exampleColorAttachment).CopyTo
        unsetColorAttachment =
      { exampleColorAttachment with sourceRGBBlendFactor := 1 } := by
  decide

/-- C6. Texture descriptor round trip: converting the mirror of a native texture descriptor
`d` back to native, on any freshly initialised object, gives a descriptor whose fifteen
fields are those of `d`. -/
theorem C6_TextureDescriptor_roundtrip (init d : MTL.TextureDescriptor) :
    ((TextureDescriptor.ctor d).operatorMTL init).textureType = d.textureType ∧
    ((TextureDescriptor.ctor d).operatorMTL init).pixelFormat = d.pixelFormat ∧
    ((TextureDescriptor.ctor d).operatorMTL init).width = d.width ∧
    ((TextureDescriptor.ctor d).operatorMTL init).height = d.height ∧
    ((TextureDescriptor.ctor d).operatorMTL init).depth = d.depth ∧
    ((TextureDescriptor.ctor d).operatorMTL init).mipmapLevelCount = d.mipmapLevelCount ∧
    ((TextureDescriptor.ctor d).operatorMTL init).sampleCount = d.sampleCount ∧
    ((TextureDescriptor.ctor d).operatorMTL init).arrayLength = d.arrayLength ∧
    ((TextureDescriptor.ctor d).operatorMTL init).resourceOptions = d.resourceOptions ∧
    ((TextureDescriptor.ctor d).operatorMTL init).cpuCacheMode = d.cpuCacheMode ∧
    ((TextureDescriptor.ctor d).operatorMTL init).storageMode = d.storageMode ∧
    ((TextureDescriptor.ctor d).operatorMTL init).hazardTrackingMode = d.hazardTrackingMode ∧
    ((TextureDescriptor.ctor d).operatorMTL init).usage = d.usage ∧
    ((TextureDescriptor.ctor d).operatorMTL init).allowGPUOptimizedContents =
      d.allowGPUOptimizedContents ∧
    ((TextureDescriptor.ctor d).operatorMTL init).swizzle = d.swizzle :=
  ⟨rfl, rfl, rfl, rfl, rfl, rfl, rfl, rfl, rfl, rfl, rfl, rfl, rfl, rfl, rfl⟩

/-- C7. Render pipeline descriptor scalar round trip: exporting the mirror of a native
render pipeline descriptor `d`, on any freshly initialised object, gives a descriptor
whose twenty-one top-level scalar fields are those of `d`. -/
theorem C7_RenderPipelineDescriptor_scalar_roundtrip (h : Declarations)
    (init d : MTL.RenderPipelineDescriptor) :
    ((RenderPipelineDescriptor.ctor h d).operatorMTL h init).sampleCount = d.sampleCount ∧
    ((RenderPipelineDescriptor.ctor h d).operatorMTL h init).rasterSampleCount =
      d.rasterSampleCount ∧
    ((RenderPipelineDescriptor.ctor h d).operatorMTL h init).alphaToCoverageEnabled =
      d.alphaToCoverageEnabled ∧
    ((RenderPipelineDescriptor.ctor h d).operatorMTL h init).alphaToOneEnabled =
      d.alphaToOneEnabled ∧
    ((RenderPipelineDescriptor.ctor h d).operatorMTL h init).rasterizationEnabled =
      d.rasterizationEnabled ∧
    ((RenderPipelineDescriptor.ctor h d).operatorMTL h init).maxVertexAmplificationCount =
      d.maxVertexAmplificationCount ∧
    ((RenderPipelineDescriptor.ctor h d).operatorMTL h init).depthAttachmentPixelFormat =
      d.depthAttachmentPixelFormat ∧
    ((RenderPipelineDescriptor.ctor h d).operatorMTL h init).stencilAttachmentPixelFormat =
      d.stencilAttachmentPixelFormat ∧
    ((RenderPipelineDescriptor.ctor h d).operatorMTL h init).inputPrimitiveTopology =
      d.inputPrimitiveTopology ∧
    ((RenderPipelineDescriptor.ctor h d).operatorMTL h init).tessellationPartitionMode =
      d.tessellationPartitionMode ∧
    ((RenderPipelineDescriptor.ctor h d).operatorMTL h init).maxTessellationFactor =
      d.maxTessellationFactor ∧
    ((RenderPipelineDescriptor.ctor h d).operatorMTL h init).tessellationFactorScaleEnabled =
      d.tessellationFactorScaleEnabled ∧
    ((RenderPipelineDescriptor.ctor h d).operatorMTL h init).tessellationFactorFormat =
      d.tessellationFactorFormat ∧
    ((RenderPipelineDescriptor.ctor h d).operatorMTL h init).tessellationControlPointIndexType =
      d.tessellationControlPointIndexType ∧
    ((RenderPipelineDescriptor.ctor h d).operatorMTL h init).tessellationFactorStepFunction =
      d.tessellationFactorStepFunction ∧
    ((RenderPipelineDescriptor.ctor h d).operatorMTL h init).tessellationOutputWindingOrder =
      d.tessellationOutputWindingOrder ∧
    ((RenderPipelineDescriptor.ctor h d).operatorMTL h init).supportIndirectCommandBuffers =
      d.supportIndirectCommandBuffers ∧
    ((RenderPipelineDescriptor.ctor h d).operatorMTL h init).supportAddingVertexBinaryFunctions =
      d.supportAddingVertexBinaryFunctions ∧
    ((RenderPipelineDescriptor.ctor h d).operatorMTL h init).supportAddingFragmentBinaryFunctions =
      d.supportAddingFragmentBinaryFunctions ∧
    ((RenderPipelineDescriptor.ctor h d).operatorMTL h init).maxVertexCallStackDepth =
      d.maxVertexCallStackDepth ∧
    ((RenderPipelineDescriptor.ctor h d).operatorMTL h init).maxFragmentCallStackDepth =
      d.maxFragmentCallStackDepth :=
  ⟨rfl, rfl, rfl, rfl, rfl, rfl, rfl, rfl, rfl, rfl, rfl, rfl, rfl, rfl, rfl, rfl, rfl, rfl,
    rfl, rfl, rfl⟩

/-- A loop `for(i = 0; i < k; ++i) a[i] = g(i, a[i])` keeps the length of the array. -/
theorem foldl_set_length {T : Type} (g : Nat → T → T) (d : T) (k : Nat) (a : List T) :
    ((List.range k).foldl (fun a i => a.set i (g i (a.getD i d))) a).length = a.length := by
  induction k with
  | zero => rfl
  | succ k ih =>
    rw [List.range_succ, List.foldl_append]
    simp only [List.foldl_cons, List.foldl_nil, List.length_set, ih]

/-- A loop `for(i = 0; i < k; ++i) a[i] = g(i, a[i])`, entry by entry. -/
theorem foldl_set_getElem? {T : Type} (g : Nat → T → T) (d : T) (k : Nat) (a : List T)
    (i : Nat) :
    ((List.range k).foldl (fun a i => a.set i (g i (a.getD i d))) a)[i]? =
      if i < k ∧ i < a.length then some (g i (a.getD i d)) else a[i]? := by
  induction k with
  | zero => simp
  | succ k ih =>
    rw [List.range_succ, List.foldl_append]
    simp only [List.foldl_cons, List.foldl_nil]
    rw [List.getElem?_set, foldl_set_length]
    by_cases hik : k = i
    · subst hik
      have hk : ((List.range k).foldl (fun a i => a.set i (g i (a.getD i d))) a).getD k d
          = a.getD k d := by
        rw [List.getD_eq_getElem?_getD, ih, List.getD_eq_getElem?_getD]
        simp
      rw [if_pos rfl, hk]
      by_cases hl : k < a.length
      · rw [if_pos hl, if_pos ⟨by omega, hl⟩]
      · rw [if_neg hl, if_neg (fun hc => hl hc.2)]
        exact (List.getElem?_eq_none (Nat.le_of_not_lt hl)).symm
    · rw [if_neg hik, ih]
      have : (i < k + 1 ∧ i < a.length) ↔ (i < k ∧ i < a.length) := by
        constructor
        · rintro ⟨h1, h2⟩; exact ⟨by omega, h2⟩
        · rintro ⟨h1, h2⟩; exact ⟨by omega, h2⟩
      simp only [this]

/-- A loop `for(i = 0; i < n; ++i) a[i] = f(i)` over an array of `n` elements. -/
theorem foldl_set_eq_map {T : Type} (f : Nat → T) (n : Nat) (a : List T)
    (ha : a.length = n) :
    (List.range n).foldl (fun a i => a.set i (f i)) a = (List.range n).map f := by
  have hg := foldl_set_getElem? (fun i _ => f i) (f 0) n a
  have hl := foldl_set_length (fun i _ => f i) (f 0) n a
  apply List.ext_getElem?
  intro i
  rw [hg i, ha]
  by_cases hi : i < n
  · simp [hi, List.getElem?_range hi]
  · rw [if_neg (by omega), List.getElem?_eq_none (by omega),
      List.getElem?_eq_none (by simp; omega)]

theorem range_map_getD {T : Type} (l : List T) (d : T) :
    (List.range l.length).map (fun i => l.getD i d) = l := by
  apply List.ext_getElem?
  intro i
  by_cases hi : i < l.length
  · simp [List.getElem?_range hi, hi, List.getD_eq_getElem?_getD]
  · rw [List.getElem?_eq_none (by simp; omega), List.getElem?_eq_none (by omega)]

theorem range_map_comp_getD {T U : Type} (l : List T) (d : T) (f : T → U) :
    (List.range l.length).map (fun i => f (l.getD i d)) = l.map f := by
  have := congrArg (List.map f) (range_map_getD l d)
  rw [List.map_map] at this
  exact this

/-- `GetWrappedNSArray` into an empty array wraps the elements of the native array in
order; a null native array gives the empty array. -/
theorem GetWrappedNSArray_nil {W P : Type} (GetWrapped : Option P → Option W)
    (src : NS.Array (Option P)) :
    GetWrappedNSArray GetWrapped [] src = (src.getD []).map GetWrapped := by
  unfold GetWrappedNSArray
  simp only
  rw [foldl_set_eq_map _ _ _ (by simp [rdcarray.resize])]
  cases src with
  | none => simp [NS.Array.count]
  | some l =>
    simp only [NS.Array.count, NS.Array.object, Option.getD_some]
    exact range_map_comp_getD l none GetWrapped

/-- `CreateUnwrappedNSArray` gives the null array for an empty array and the array of the
unwrapped elements in order otherwise. -/
theorem CreateUnwrappedNSArray_eq {W P : Type} (Unwrap : Option W → Option P)
    (frm : List (Option W)) :
    CreateUnwrappedNSArray Unwrap frm =
      if frm.length = 0 then none else some (frm.map Unwrap) := by
  unfold CreateUnwrappedNSArray
  simp only
  by_cases hl : frm.length = 0
  · rw [if_neg (fun hc => hc hl), if_pos hl]
  · rw [if_pos hl, if_neg hl, foldl_set_eq_map _ _ _ (by simp)]
    rw [range_map_comp_getD frm none Unwrap]
    simp [NS.Array.array]

/-! ## Linked function groups -/

theorem LinkedFunctions.CopyTo.step_foldl (h : Declarations) (groups : List FunctionGroups)
    (l : List Nat) (vk : List (NS.Array (Option MTL.Function)) × List String) :
    l.foldl (LinkedFunctions.CopyTo.step h groups) vk =
      (l.foldl (fun a i =>
          a.set i (CreateUnwrappedNSArray h.Unwrap (groups.getD i {}).functions)) vk.1,
       l.foldl (fun a i => a.set i (groups.getD i {}).callsite) vk.2) := by
  induction l generalizing vk with
  | nil => rfl
  | cons x xs ih =>
    simp only [List.foldl_cons]
    rw [ih]
    rfl

/-- The dictionary that `LinkedFunctions::CopyTo` builds: null without groups, otherwise
built from the unwrapped function arrays and the call site names of the groups, in order. -/
theorem LinkedFunctions.CopyTo.inGroups_eq (h : Declarations) (self : LinkedFunctions) :
    LinkedFunctions.CopyTo.inGroups h self =
      if self.groups.length ≠ 0 then
        h.dictionary
          (self.groups.map fun g => CreateUnwrappedNSArray h.Unwrap g.functions)
          (self.groups.map fun g => g.callsite) self.groups.length
      else none := by
  unfold LinkedFunctions.CopyTo.inGroups
  simp only
  split
  · rw [LinkedFunctions.CopyTo.step_foldl]
    simp only
    rw [foldl_set_eq_map _ _ _ (by simp), foldl_set_eq_map _ _ _ (by simp)]
    rw [range_map_comp_getD self.groups {}
        (fun g => CreateUnwrappedNSArray h.Unwrap g.functions),
      range_map_comp_getD self.groups {} (fun g => g.callsite)]
  · rfl

/-- The groups that `LinkedFunctions::LinkedFunctions` ingests: one per key of the native
dictionary in enumeration order, named by the key read as a C string, with the wrapped
functions of the value under the key. -/
theorem LinkedFunctions.ctor_groups (h : Declarations) (objc : Option MTL.LinkedFunctions) :
    (LinkedFunctions.ctor h objc).groups =
      (NS.Dictionary.allKeys (objc.bind fun o => o.groups)).map fun key =>
        { callsite := rdcstr.assign key
          functions :=
            ((NS.Dictionary.object (objc.bind fun o => o.groups) key).getD []).map
              h.GetWrapped } := by
  obtain ⟨g, hg⟩ : ∃ g : Nat → FunctionGroups → FunctionGroups, g = fun i fg =>
      { callsite := rdcstr.assign
          ((NS.Dictionary.allKeys (objc.bind fun o => o.groups)).getD i "")
        functions := GetWrappedNSArray h.GetWrapped fg.functions
          (NS.Dictionary.object (objc.bind fun o => o.groups)
            ((NS.Dictionary.allKeys (objc.bind fun o => o.groups)).getD i "")) } :=
    ⟨_, rfl⟩
  have hstep : LinkedFunctions.ctor.step h (objc.bind fun o => o.groups)
        (NS.Dictionary.allKeys (objc.bind fun o => o.groups)) =
      fun a i => a.set i (g i (a.getD i {})) := by
    rw [hg]
    rfl
  show (List.range (NS.Dictionary.allKeys (objc.bind fun o => o.groups)).length).foldl
      (LinkedFunctions.ctor.step h (objc.bind fun o => o.groups)
        (NS.Dictionary.allKeys (objc.bind fun o => o.groups)))
      (rdcarray.resize {} [] (NS.Dictionary.allKeys (objc.bind fun o => o.groups)).length) = _
  rw [hstep]
  apply List.ext_getElem?
  intro i
  rw [foldl_set_getElem? g {}]
  have hr : rdcarray.resize ({} : FunctionGroups) []
      (NS.Dictionary.allKeys (objc.bind fun o => o.groups)).length =
      List.replicate (NS.Dictionary.allKeys (objc.bind fun o => o.groups)).length {} := by
    simp [rdcarray.resize]
  rw [hr]
  by_cases hi : i < (NS.Dictionary.allKeys (objc.bind fun o => o.groups)).length
  · rw [if_pos ⟨hi, by simpa using hi⟩]
    have hd : (List.replicate (NS.Dictionary.allKeys (objc.bind fun o => o.groups)).length
        ({} : FunctionGroups)).getD i {} = {} := by
      rw [List.getD_eq_getElem?_getD, List.getElem?_replicate]
      simp [hi]
    rw [hd, List.getElem?_map, List.getElem?_eq_getElem hi, hg]
    simp only [Option.map_some', GetWrappedNSArray_nil]
    rw [List.getD_eq_getElem?_getD, List.getElem?_eq_getElem hi]
    rfl
  · rw [if_neg (fun hc => hi hc.1), List.getElem?_eq_none (by simp; omega),
      List.getElem?_eq_none (by simp; omega)]

theorem find?_key_of_mem {V : Type} (l : List (String × V)) (hn : (l.map Prod.fst).Nodup)
    (e : String × V) (he : e ∈ l) : l.find? (fun x => x.1 == e.1) = some e := by
  induction l with
  | nil => cases he
  | cons x xs ih =>
    rw [List.map_cons, List.nodup_cons] at hn
    rw [List.find?_cons]
    rcases List.mem_cons.mp he with h1 | h1
    · subst h1; simp
    · have hne : x.1 ≠ e.1 := by
        intro hc
        exact hn.1 (hc ▸ List.mem_map_of_mem Prod.fst h1)
      have : (x.1 == e.1) = false := by simpa using hne
      rw [this]
      exact ih hn.2 h1

/-- Wrapping the exported array of a group gives back the functions of the group. -/
theorem wrap_unwrapped (h : Declarations) (fs : List (Option WrappedMTLFunction))
    (hinv : ∀ f ∈ fs, h.GetWrapped (h.Unwrap f) = f) :
    ((CreateUnwrappedNSArray h.Unwrap fs).getD []).map h.GetWrapped = fs := by
  rw [CreateUnwrappedNSArray_eq]
  by_cases hl : fs.length = 0
  · rw [if_pos hl, List.length_eq_zero.mp hl]; rfl
  · rw [if_neg hl, Option.getD_some, List.map_map]
    conv_rhs => rw [← List.map_id fs]
    exact List.map_congr_left fun f hf => hinv f hf

/-- Round trip of the groups where the dictionary constructor accepts what it is given. Let
the call site names of the groups of the mirror `m` be pairwise distinct and hold no NUL,
let `GetWrapped (Unwrap f) = f` for the functions of its groups, and let the dictionary
constructor of the host runtime, called on the value and key arrays that `m.CopyTo` builds
when `m` has groups, return a dictionary that holds these key-value pairs in some
enumeration order. Then ingesting the native table that `m.CopyTo` wrote gives a mirror
whose groups are the groups of `m` up to their order. -/
theorem linked_function_groups_roundtrip (h : Declarations) (m : LinkedFunctions)
    (fresh : MTL.LinkedFunctions)
    (hdistinct : (m.groups.map fun g => g.callsite).Nodup)
    (hnul : ∀ g ∈ m.groups, Char.ofNat 0 ∉ g.callsite.data)
    (hinv : ∀ g ∈ m.groups, ∀ f ∈ g.functions, h.GetWrapped (h.Unwrap f) = f)
    (hdict : m.groups ≠ [] →
      ∃ D, h.dictionary
          (m.groups.map fun g => CreateUnwrappedNSArray h.Unwrap g.functions)
          (m.groups.map fun g => g.callsite) m.groups.length = some D ∧
        D.entries.Perm ((m.groups.map fun g => g.callsite).zip
          (m.groups.map fun g => CreateUnwrappedNSArray h.Unwrap g.functions))) :
    (LinkedFunctions.ctor h (some (m.CopyTo h fresh))).groups.Perm m.groups ∧
    (∀ name fs, ({ callsite := name, functions := fs } : FunctionGroups) ∈
        (LinkedFunctions.ctor h (some (m.CopyTo h fresh))).groups ↔
      ({ callsite := name, functions := fs } : FunctionGroups) ∈ m.groups) := by
  have hperm : (LinkedFunctions.ctor h (some (m.CopyTo h fresh))).groups.Perm m.groups := by
    rw [LinkedFunctions.ctor_groups]
    have hG : ((some (m.CopyTo h fresh)).bind fun o => o.groups) =
        LinkedFunctions.CopyTo.inGroups h m := rfl
    rw [hG, LinkedFunctions.CopyTo.inGroups_eq]
    by_cases hl : m.groups.length = 0
    · rw [if_neg (fun hc => hc hl), List.length_eq_zero.mp hl]
      simp [NS.Dictionary.allKeys]
    · rw [if_pos hl]
      obtain ⟨D, hD, hDperm⟩ := hdict (fun hc => hl (by rw [hc]; rfl))
      rw [hD]
      have hzip : (m.groups.map fun g => g.callsite).zip
          (m.groups.map fun g => CreateUnwrappedNSArray h.Unwrap g.functions) =
          m.groups.map fun g => (g.callsite, CreateUnwrappedNSArray h.Unwrap g.functions) :=
        List.zip_map' _ _ _
      rw [hzip] at hDperm
      have hnodup : (D.entries.map Prod.fst).Nodup := by
        rw [(hDperm.map Prod.fst).nodup_iff, List.map_map]
        exact hdistinct
      have hkeys : (NS.Dictionary.allKeys (some D)).map (fun key =>
            ({ callsite := rdcstr.assign key
               functions := ((NS.Dictionary.object (some D) key).getD []).map h.GetWrapped } :
              FunctionGroups)) =
          D.entries.map (fun e =>
            ({ callsite := rdcstr.assign e.1, functions := (e.2.getD []).map h.GetWrapped } :
              FunctionGroups)) := by
        simp only [NS.Dictionary.allKeys, List.map_map]
        apply List.map_congr_left
        intro e he
        simp only [Function.comp, NS.Dictionary.object, find?_key_of_mem D.entries hnodup e he]
      rw [hkeys]
      refine (hDperm.map _).trans ?_
      rw [List.map_map]
      have hid : m.groups.map ((fun e : String × NS.Array (Option MTL.Function) =>
            ({ callsite := rdcstr.assign e.1, functions := (e.2.getD []).map h.GetWrapped } :
              FunctionGroups)) ∘
          fun g => (g.callsite, CreateUnwrappedNSArray h.Unwrap g.functions)) =
          m.groups := by
        conv_rhs => rw [← List.map_id m.groups]
        apply List.map_congr_left
        intro g hg
        simp only [Function.comp, id, wrap_unwrapped h g.functions (hinv g hg),
          rdcstr.assign_eq_self g.callsite (hnul g hg)]
      rw [hid]
  exact ⟨hperm, fun name fs => hperm.mem_iff⟩

/-- The round trip of the groups `a ↦ [f1]` and `b ↦ [f2, f3]`, with a dictionary that
enumerates its keys in reverse. -/
theorem linked_function_groups_roundtrip_example :
    (LinkedFunctions.ctor exampleDeclarations
      (some (exampleLinkedFunctions.CopyTo exampleDeclarations
        freshLinkedFunctions))).groups.Perm exampleLinkedFunctions.groups :=
  (linked_function_groups_roundtrip exampleDeclarations exampleLinkedFunctions
    freshLinkedFunctions (by decide) (by decide) (by decide)
    (fun _ => ⟨_, rfl, List.reverse_perm _⟩)).1

/-- C9, the code at the failing input. The native table with the one group `a ↦ []` is
ingested as the mirror with the group `a` without functions. Exporting that mirror,
`CopyTo` puts the null array that `CreateUnwrappedNSArray` returns at index 0 of `values`,
next to the key `a`, and hands both to the dictionary constructor. With a constructor
that takes no null object no dictionary is made, and ingesting the exported table gives a
mirror without groups: the group `a` is lost. -/
theorem C9_empty_group_roundtrip_divergence :
    (LinkedFunctions.ctor refusingDeclarations
      (some emptyGroupNativeLinkedFunctions)).groups = emptyGroupLinkedFunctions.groups ∧
    emptyGroupLinkedFunctions.groups = [{ callsite := "a", functions := [] }] ∧
    (List.range emptyGroupLinkedFunctions.groups.length).foldl
        (LinkedFunctions.CopyTo.step refusingDeclarations emptyGroupLinkedFunctions.groups)
        (List.replicate emptyGroupLinkedFunctions.groups.length none,
         List.replicate emptyGroupLinkedFunctions.groups.length "") = ([none], ["a"]) ∧
    (LinkedFunctions.CopyTo.inGroups refusingDeclarations emptyGroupLinkedFunctions).isNone =
      true ∧
    (LinkedFunctions.ctor refusingDeclarations
      (some (emptyGroupLinkedFunctions.CopyTo refusingDeclarations
        freshLinkedFunctions))).groups = [] ∧
    ¬ (LinkedFunctions.ctor refusingDeclarations
      (some (emptyGroupLinkedFunctions.CopyTo refusingDeclarations
        freshLinkedFunctions))).groups.Perm emptyGroupLinkedFunctions.groups := by
  refine ⟨by decide, by decide, by decide, by decide, by decide, ?_⟩
  have hg : (LinkedFunctions.ctor refusingDeclarations
      (some (emptyGroupLinkedFunctions.CopyTo refusingDeclarations
        freshLinkedFunctions))).groups = [] := by decide
  rw [hg]
  intro hp
  have := hp.length_eq
  revert this
  decide

/-- C10. Function references are held by wrapper and unwrapped on export: the mirror of `d`
holds `GetWrapped` of the vertex and fragment functions of `d`, the exported descriptor
holds `Unwrap` of the references of the mirror, and the round trip gives back the vertex
function, and the fragment function, absent or not, whenever `Unwrap (GetWrapped f) = f`
for it. -/
theorem C10_function_references_wrapped (h : Declarations)
    (init d : MTL.RenderPipelineDescriptor) (m : RenderPipelineDescriptor) :
    (RenderPipelineDescriptor.ctor h d).vertexFunction = h.GetWrapped d.vertexFunction ∧
    (RenderPipelineDescriptor.ctor h d).fragmentFunction = h.GetWrapped d.fragmentFunction ∧
    (m.operatorMTL h init).vertexFunction = h.Unwrap m.vertexFunction ∧
    (m.operatorMTL h init).fragmentFunction = h.Unwrap m.fragmentFunction ∧
    (h.Unwrap (h.GetWrapped d.vertexFunction) = d.vertexFunction →
      ((RenderPipelineDescriptor.ctor h d).operatorMTL h init).vertexFunction =
        d.vertexFunction) ∧
    (h.Unwrap (h.GetWrapped d.fragmentFunction) = d.fragmentFunction →
      ((RenderPipelineDescriptor.ctor h d).operatorMTL h init).fragmentFunction =
        d.fragmentFunction) ∧
    (d.fragmentFunction = none → h.Unwrap (h.GetWrapped none) = none →
      ((RenderPipelineDescriptor.ctor h d).operatorMTL h init).fragmentFunction = none) := by
  refine ⟨rfl, rfl, rfl, rfl, fun hv => hv, fun hf => hf, ?_⟩
  intro hd hn
  show h.Unwrap (h.GetWrapped d.fragmentFunction) = none
  rw [hd, hn]

/-- C10, on the example pipeline, which has the vertex function 7 and no fragment
function: both come back from the round trip. -/
theorem C10_function_references_wrapped_witness :
    ((RenderPipelineDescriptor.ctor exampleDeclarations examplePipeline).operatorMTL
      exampleDeclarations freshPipeline).vertexFunction = some { handle := 7 } ∧
    ((RenderPipelineDescriptor.ctor exampleDeclarations examplePipeline).operatorMTL
      exampleDeclarations freshPipeline).fragmentFunction = none :=
  ⟨(C10_function_references_wrapped exampleDeclarations freshPipeline examplePipeline
      (RenderPipelineDescriptor.ctor exampleDeclarations examplePipeline)).2.2.2.2.1
      (by decide),
   (C10_function_references_wrapped exampleDeclarations freshPipeline examplePipeline
      (RenderPipelineDescriptor.ctor exampleDeclarations examplePipeline)).2.2.2.2.2.2
      rfl (by decide)⟩

/-! ## Ingest of linked function groups and of labels -/

/-- C15, as stated, fails: the native table whose only key is `a`, NUL, `b` is ingested as
one group whose call site is `a`, the key read as a C string, and not the key. -/
theorem C15_callsite_equals_key_counterexample :
    (NS.Dictionary.allKeys nulKeyNativeLinkedFunctions.groups)[0]? = some "a\x00b" ∧
    (LinkedFunctions.ctor exampleDeclarations (some nulKeyNativeLinkedFunctions)).groups =
      [{ callsite := "a", functions := [some { id := 2 }] }] ∧
    ¬ (∀ (i : Nat) (key : String),
      (NS.Dictionary.allKeys nulKeyNativeLinkedFunctions.groups)[i]? = some key →
      ∃ g : FunctionGroups,
        (LinkedFunctions.ctor exampleDeclarations
          (some nulKeyNativeLinkedFunctions)).groups[i]? = some g ∧ g.callsite = key) := by
  refine ⟨by decide, by decide, ?_⟩
  intro hall
  obtain ⟨g, hg, hc⟩ := hall 0 "a\x00b" (by decide)
  have hg0 : (LinkedFunctions.ctor exampleDeclarations
      (some nulKeyNativeLinkedFunctions)).groups[0]? =
      some { callsite := "a", functions := [some { id := 2 }] } := by decide
  rw [hg0] at hg
  cases hg
  revert hc
  decide

/-- C15, amended. Group ingest preserves enumeration order: with `k_0 .. k_{n-1}` the keys
of the groups dictionary of a native table in enumeration order, the mirror has `n` groups,
and group `i` has as call site `k_i` read as a C string, the part of `k_i` before its first
NUL, which is `k_i` when `k_i` holds no NUL, and as many functions as the value of the
dictionary for `k_i` has elements, function `j` being `GetWrapped` of element `j` of that
value. -/
theorem C15_group_ingest_preserves_enumeration_order (h : Declarations)
    (objc : MTL.LinkedFunctions) :
    (LinkedFunctions.ctor h (some objc)).groups.length =
      (NS.Dictionary.allKeys objc.groups).length ∧
    (∀ (i : Nat) (key : String), (NS.Dictionary.allKeys objc.groups)[i]? = some key →
      ∃ g : FunctionGroups, (LinkedFunctions.ctor h (some objc)).groups[i]? = some g ∧
        g.callsite = rdcstr.assign key ∧
        (Char.ofNat 0 ∉ key.data → g.callsite = key) ∧
        g.functions.length = NS.Array.count (NS.Dictionary.object objc.groups key) ∧
        g.functions = ((NS.Dictionary.object objc.groups key).getD []).map h.GetWrapped ∧
        ∀ j, j < NS.Array.count (NS.Dictionary.object objc.groups key) →
          g.functions[j]? =
            some (h.GetWrapped (NS.Array.object (NS.Dictionary.object objc.groups key) j))) := by
  have hg := LinkedFunctions.ctor_groups h (some objc)
  have hb : ((some objc).bind fun o => o.groups) = objc.groups := rfl
  rw [hb] at hg
  rw [hg]
  refine ⟨by simp, ?_⟩
  intro i key hk
  refine ⟨_, by rw [List.getElem?_map, hk]; rfl, rfl,
    fun hn => rdcstr.assign_eq_self key hn, ?_, rfl, ?_⟩
  · cases hv : NS.Dictionary.object objc.groups key with
    | none => simp [NS.Array.count, hv]
    | some l => simp [NS.Array.count, hv]
  · intro j hj
    cases hv : NS.Dictionary.object objc.groups key with
    | none => rw [hv] at hj; simp [NS.Array.count] at hj
    | some l =>
      rw [hv] at hj
      simp only [NS.Array.count] at hj
      simp [hv, NS.Array.object, List.getElem?_eq_getElem hj, List.getD_eq_getElem?_getD]

/-- C15, on the example native table, whose dictionary enumerates `a` then `b`: the group 1
of the mirror is `b` with the wrappers of its two functions. -/
theorem C15_group_ingest_preserves_enumeration_order_witness :
    ∃ g : FunctionGroups, (LinkedFunctions.ctor exampleDeclarations
        (some exampleNativeLinkedFunctions)).groups[1]? = some g ∧
      g.callsite = "b" ∧ g.functions = [some { id := 3 }, some { id := 4 }] := by
  obtain ⟨g, hg, _, hc, _, hf, _⟩ :=
    (C15_group_ingest_preserves_enumeration_order exampleDeclarations
      exampleNativeLinkedFunctions).2 1 "b" (by decide)
  exact ⟨g, hg, hc (by decide), by rw [hf]; decide⟩

/-- C16. A missing groups dictionary is normalised: ingesting a native table without a
groups dictionary gives a mirror with no groups, and exporting a mirror with no groups sets
the groups dictionary of the native table to null, whatever it was. -/
theorem C16_missing_groups_dictionary (h : Declarations) (objc fresh : MTL.LinkedFunctions)
    (m : LinkedFunctions) :
    (objc.groups = none → (LinkedFunctions.ctor h (some objc)).groups = []) ∧
    (m.groups = [] → (m.CopyTo h fresh).groups = none) := by
  constructor
  · intro hn
    have hg := LinkedFunctions.ctor_groups h (some objc)
    have hb : ((some objc).bind fun o => o.groups) = objc.groups := rfl
    rw [hb, hn] at hg
    rw [hg]
    rfl
  · intro hm
    show LinkedFunctions.CopyTo.inGroups h m = none
    rw [LinkedFunctions.CopyTo.inGroups_eq, hm]
    rfl

/-- C16, on the fresh native table, which has no groups dictionary, and on the mirror
without groups exported to the example native table, which has one. -/
theorem C16_missing_groups_dictionary_witness :
    (LinkedFunctions.ctor exampleDeclarations (some freshLinkedFunctions)).groups = [] ∧
    (LinkedFunctions.CopyTo exampleDeclarations {} exampleNativeLinkedFunctions).groups =
      none :=
  ⟨(C16_missing_groups_dictionary exampleDeclarations freshLinkedFunctions
      exampleNativeLinkedFunctions {}).1 rfl,
   (C16_missing_groups_dictionary exampleDeclarations freshLinkedFunctions
      exampleNativeLinkedFunctions {}).2 rfl⟩

/-- C17, as stated, fails: the pipeline descriptor whose label is `ab`, NUL, `cd`, a label
that is not empty, comes back from the round trip with the label `ab`. -/
theorem C17_label_roundtrip_counterexample :
    nulLabelPipeline.label = some "ab\x00cd" ∧
    (RenderPipelineDescriptor.ctor exampleDeclarations nulLabelPipeline).label = "ab" ∧
    ((RenderPipelineDescriptor.ctor exampleDeclarations nulLabelPipeline).operatorMTL
      exampleDeclarations freshPipeline).label = some "ab" ∧
    ((RenderPipelineDescriptor.ctor exampleDeclarations nulLabelPipeline).operatorMTL
      exampleDeclarations freshPipeline).label ≠ nulLabelPipeline.label := by
  decide

/-- C17, amended. Label round trip, on a freshly initialised native descriptor, which has
no label: a label of `d` that is not empty and holds no NUL is the label of the
round-tripped descriptor; in general the mirror has the label of `d` read as a C string,
the part before its first NUL, and the round-tripped descriptor has that part as its label
when it is not empty and no label when it is; when `d` has no label or the empty label, the
mirror has the empty label and the round-tripped descriptor has no label. -/
theorem C17_label_roundtrip (h : Declarations) (init d : MTL.RenderPipelineDescriptor)
    (hinit : init.label = none) :
    (∀ s, d.label = some s → s ≠ "" → Char.ofNat 0 ∉ s.data →
      ((RenderPipelineDescriptor.ctor h d).operatorMTL h init).label = some s) ∧
    (∀ s, d.label = some s →
      (RenderPipelineDescriptor.ctor h d).label = rdcstr.assign s ∧
      ((RenderPipelineDescriptor.ctor h d).operatorMTL h init).label =
        if rdcstr.assign s ≠ "" then some (rdcstr.assign s) else none) ∧
    (d.label = none ∨ d.label = some "" →
      (RenderPipelineDescriptor.ctor h d).label = "" ∧
      ((RenderPipelineDescriptor.ctor h d).operatorMTL h init).label = none) := by
  have hexp : ∀ m : RenderPipelineDescriptor,
      (m.operatorMTL h init).label = if m.label ≠ "" then some m.label else none := by
    intro m
    show (if m.label.length > 0 then some m.label else init.label) = _
    rw [hinit]
    by_cases hm : m.label.length > 0
    · rw [if_pos hm, if_pos ((string_length_pos_iff _).1 hm)]
    · rw [if_neg hm, if_neg (fun hc => hm ((string_length_pos_iff _).2 hc))]
  have hing : ∀ s, d.label = some s →
      (RenderPipelineDescriptor.ctor h d).label = rdcstr.assign s := by
    intro s hs
    show (match d.label with | some s => rdcstr.assign s | none => "") = _
    rw [hs]
  refine ⟨?_, ?_, ?_⟩
  · intro s hs hne hnul
    rw [hexp, hing s hs, rdcstr.assign_eq_self s hnul, if_pos hne]
  · intro s hs
    refine ⟨hing s hs, ?_⟩
    rw [hexp, hing s hs]
  · intro hd
    have hl : (RenderPipelineDescriptor.ctor h d).label = "" := by
      rcases hd with hd | hd
      · show (match d.label with | some s => rdcstr.assign s | none => "") = ""
        rw [hd]
      · rw [hing "" hd]
        rfl
    refine ⟨hl, ?_⟩
    rw [hexp, hl]
    rfl

/-- C17, amended, on the example pipeline, whose label is `main pass`. -/
theorem C17_label_roundtrip_witness :
    ((RenderPipelineDescriptor.ctor exampleDeclarations examplePipeline).operatorMTL
      exampleDeclarations freshPipeline).label = some "main pass" :=
  (C17_label_roundtrip exampleDeclarations freshPipeline examplePipeline rfl).1
    "main pass" rfl (by decide) (by decide)

/-! ## Unwrapped arrays -/

theorem GetObjcArray.step_congr {M N : Type} (dflt : M) (mk : N → M)
    (src src' : Nat → Option N) (validData : N → Bool) (dst : List M) (i : Nat)
    (hacc : accepted src' validData i = accepted src validData i)
    (hm : accepted src validData i = true →
      mirrorAt dflt mk src' validData i = mirrorAt dflt mk src validData i) :
    GetObjcArray.step dflt mk src' validData dst i =
      GetObjcArray.step dflt mk src validData dst i := by
  have key : ∀ s : Nat → Option N, GetObjcArray.step dflt mk s validData dst i =
      if accepted s validData i = true then
        (rdcarray.resize_for_index dflt dst i).set i (mirrorAt dflt mk s validData i)
      else dst := by
    intro s
    unfold GetObjcArray.step accepted mirrorAt
    cases hs : s i with
    | none => simp
    | some el =>
      cases hv : validData el <;> simp [hv]
  rw [key src, key src', hacc]
  split
  · next ha => rw [hm ha]
  · rfl

theorem GetObjcArray.congr {M N : Type} (MAX_COUNT : Nat) (dflt : M) (mk : N → M)
    (src src' : Nat → Option N) (validData : N → Bool) (dst : List M)
    (hacc : ∀ i, i < MAX_COUNT → accepted src' validData i = accepted src validData i)
    (hm : ∀ i, i < MAX_COUNT → accepted src validData i = true →
      mirrorAt dflt mk src' validData i = mirrorAt dflt mk src validData i) :
    GetObjcArray MAX_COUNT dflt mk dst src' validData =
      GetObjcArray MAX_COUNT dflt mk dst src validData := by
  induction MAX_COUNT with
  | zero => rfl
  | succ k ih =>
    unfold GetObjcArray at ih ⊢
    rw [List.range_succ, List.foldl_append, List.foldl_append,
      ih (fun i hi => hacc i (by omega)) (fun i hi => hm i (by omega))]
    exact GetObjcArray.step_congr dflt mk src src' validData _ k (hacc k (by omega))
      (hm k (by omega))

/-- Ingest of the export of an ingested slot array gives the ingested array again, when
the mirror of an accepted element, copied to any element, is accepted and has the same
mirror, the default-valued mirror entry copied to any element is rejected, and the target
array holds a rejected element at every slot below `MAX_COUNT`. -/
theorem GetObjcArray.idempotent {M N : Type} (MAX_COUNT : Nat) (dflt : M) (mk : N → M)
    (copyTo : M → N → N) (src fresh : Nat → Option N) (validData : N → Bool)
    (hrt : ∀ el f, validData el = true →
      validData (copyTo (mk el) f) = true ∧ mk (copyTo (mk el) f) = mk el)
    (hd : ∀ f, validData (copyTo dflt f) = false)
    (hf : ∀ i, i < MAX_COUNT → ∃ f, fresh i = some f ∧ validData f = false) :
    GetObjcArray MAX_COUNT dflt mk []
        (CopyToObjcArray copyTo fresh (GetObjcArray MAX_COUNT dflt mk [] src validData))
        validData =
      GetObjcArray MAX_COUNT dflt mk [] src validData := by
  have hcases : ∀ i, i < MAX_COUNT →
      accepted (CopyToObjcArray copyTo fresh
        (GetObjcArray MAX_COUNT dflt mk [] src validData)) validData i =
        accepted src validData i ∧
      (accepted src validData i = true →
        mirrorAt dflt mk (CopyToObjcArray copyTo fresh
          (GetObjcArray MAX_COUNT dflt mk [] src validData)) validData i =
          mirrorAt dflt mk src validData i) := by
    intro i hi
    obtain ⟨f, hfi, hfv⟩ := hf i hi
    cases ha : accepted src validData i with
    | false =>
      refine ⟨?_, fun hc => by cases hc⟩
      exact roundtrip_slot_stays_rejected MAX_COUNT dflt mk copyTo src fresh validData i hd
        (by simp [accepted, hfi, hfv]) ha
    | true =>
      obtain ⟨el, hs, hv⟩ : ∃ el, src i = some el ∧ validData el = true := by
        unfold accepted at ha
        cases hs : src i with
        | none => simp [hs] at ha
        | some el => exact ⟨el, rfl, by simpa [hs] using ha⟩
      have hslot := roundtrip_slot_accepted MAX_COUNT dflt mk copyTo src fresh validData i hi
        el hs hv
      rw [hfi] at hslot
      obtain ⟨h1, h2⟩ := hrt el f hv
      constructor
      · simp [accepted, hslot, h1]
      · intro _
        simp [mirrorAt, hslot, h1, h2, hs, hv]
  exact GetObjcArray.congr MAX_COUNT dflt mk src _ validData []
    (fun i hi => (hcases i hi).1) (fun i hi => (hcases i hi).2)

/-- C18. Ingest is idempotent on vertex descriptors: let the default-constructed layout
and attribute mirrors be rejected by the validity predicates, and let the fresh native
descriptor hold a rejected layout and a rejected attribute at every slot below
`MAX_VERTEX_SHADER_ATTRIBUTES`. Then ingesting the fresh descriptor that the mirror of `d`
was exported to gives the mirror of `d` again: the same layouts and the same attributes. -/
theorem C18_VertexDescriptor_ingest_idempotent (h : Declarations)
    (d fresh : MTL.VertexDescriptor)
    (hL : h.defaultLayout.stride = 0)
    (hA : h.defaultAttribute.format = MTL.VertexFormatInvalid)
    (fL : ∀ i, i < h.MAX_VERTEX_SHADER_ATTRIBUTES →
      ∃ f, fresh.layouts i = some f ∧ ValidData.VertexBufferLayoutDescriptor f = false)
    (fA : ∀ i, i < h.MAX_VERTEX_SHADER_ATTRIBUTES →
      ∃ f, fresh.attributes i = some f ∧ ValidData.VertexAttributeDescriptor f = false) :
    VertexDescriptor.ctor h (some ((VertexDescriptor.ctor h (some d)).CopyTo fresh)) =
      VertexDescriptor.ctor h (some d) := by
  have e1 := GetObjcArray.idempotent h.MAX_VERTEX_SHADER_ATTRIBUTES h.defaultLayout
    VertexBufferLayoutDescriptor.ctor VertexBufferLayoutDescriptor.CopyTo d.layouts
    fresh.layouts ValidData.VertexBufferLayoutDescriptor
    (fun el f hv => ⟨hv, rfl⟩)
    (fun f => by
      simp [ValidData.VertexBufferLayoutDescriptor, VertexBufferLayoutDescriptor.CopyTo, hL])
    fL
  have e2 := GetObjcArray.idempotent h.MAX_VERTEX_SHADER_ATTRIBUTES h.defaultAttribute
    VertexAttributeDescriptor.ctor VertexAttributeDescriptor.CopyTo d.attributes
    fresh.attributes ValidData.VertexAttributeDescriptor
    (fun el f hv => ⟨hv, rfl⟩)
    (fun f => by
      simp [ValidData.VertexAttributeDescriptor, VertexAttributeDescriptor.CopyTo, hA])
    fA
  show VertexDescriptor.mk _ _ = VertexDescriptor.mk _ _
  exact congrArg₂ VertexDescriptor.mk e1 e2

/-- C18, on the example vertex descriptor, with valid elements at the slots 1 and 3, and
the fresh vertex descriptor. -/
theorem C18_VertexDescriptor_ingest_idempotent_witness :
    VertexDescriptor.ctor exampleDeclarations
        (some ((VertexDescriptor.ctor exampleDeclarations
          (some sparseVertexDescriptor)).CopyTo freshVertexDescriptor)) =
      VertexDescriptor.ctor exampleDeclarations (some sparseVertexDescriptor) :=
  C18_VertexDescriptor_ingest_idempotent exampleDeclarations sparseVertexDescriptor
    freshVertexDescriptor rfl rfl
    (fun _ _ => ⟨_, rfl, rfl⟩) (fun _ _ => ⟨_, rfl, rfl⟩)

end RDMTL

/-! ## Cross-runtime bridge -/

/-- C11. The bridge size check is fatal exactly on mismatch: with the statics of the
function either not yet initialised or holding the companion class of the host runtime and
its instance size, `AllocateObjCBridge` ends with the fatal error if and only if the
size of an instance differs from the size of the storage `m_ObjcBridge`; when the sizes are
equal it returns the wrapper with the companion class stored in `m_ObjcBridge`, and statics
that hold the class and its size. -/
theorem C11_AllocateObjCBridge_fatal_iff_size_mismatch (rt : ObjCRuntime) (CPPTYPE : String)
    (sizeofObjcBridge : Nat) (statics : Option BridgeStatics) (wrappedCPP : WrappedMTL)
    (hst : statics = none ∨ statics = some
      { klass := rt.objc_lookUpClass ("ObjCBridgeMTL" ++ CPPTYPE)
        classSize := rt.class_getInstanceSize
          (rt.objc_lookUpClass ("ObjCBridgeMTL" ++ CPPTYPE)) }) :
    ((∃ diagnostic, AllocateObjCBridge rt CPPTYPE sizeofObjcBridge statics wrappedCPP =
        Except.error diagnostic) ↔
      rt.class_getInstanceSize (rt.objc_lookUpClass ("ObjCBridgeMTL" ++ CPPTYPE)) ≠
        sizeofObjcBridge) ∧
    (rt.class_getInstanceSize (rt.objc_lookUpClass ("ObjCBridgeMTL" ++ CPPTYPE)) =
        sizeofObjcBridge →
      ∃ calls, AllocateObjCBridge rt CPPTYPE sizeofObjcBridge statics wrappedCPP =
        Except.ok
          ({ wrappedCPP with
              m_ObjcBridge := rt.objc_lookUpClass ("ObjCBridgeMTL" ++ CPPTYPE) },
           { klass := rt.objc_lookUpClass ("ObjCBridgeMTL" ++ CPPTYPE)
             classSize := rt.class_getInstanceSize
               (rt.objc_lookUpClass ("ObjCBridgeMTL" ++ CPPTYPE)) },
           calls)) := by
  have hstat : (match statics with
      | some s => s
      | none =>
        ({ klass := rt.objc_lookUpClass ("ObjCBridgeMTL" ++ CPPTYPE)
           classSize := rt.class_getInstanceSize
             (rt.objc_lookUpClass ("ObjCBridgeMTL" ++ CPPTYPE)) } : BridgeStatics)) =
      { klass := rt.objc_lookUpClass ("ObjCBridgeMTL" ++ CPPTYPE)
        classSize := rt.class_getInstanceSize
          (rt.objc_lookUpClass ("ObjCBridgeMTL" ++ CPPTYPE)) } := by
    rcases hst with h | h <;> rw [h]
  unfold AllocateObjCBridge
  simp only [hstat]
  by_cases hsz : rt.class_getInstanceSize (rt.objc_lookUpClass ("ObjCBridgeMTL" ++ CPPTYPE)) =
      sizeofObjcBridge
  · have hn : ¬ (rt.class_getInstanceSize (rt.objc_lookUpClass ("ObjCBridgeMTL" ++ CPPTYPE)) ≠
        sizeofObjcBridge) := fun hc => hc hsz
    rw [if_neg hn]
    cases hr : wrappedCPP.m_Real with
    | none =>
      refine ⟨⟨fun ⟨d, hd⟩ => (by cases hd), fun hc => absurd hsz hc⟩, fun _ => ⟨[], rfl⟩⟩
    | some real =>
      refine ⟨⟨fun ⟨d, hd⟩ => (by cases hd), fun hc => absurd hsz hc⟩, fun _ => ⟨_, rfl⟩⟩
  · rw [if_pos hsz]
    exact ⟨⟨fun _ => hsz, fun _ => ⟨_, rfl⟩⟩, fun hc => absurd hc hsz⟩

/-- C11, on the example runtime: for the device wrapper, whose companion class has the size
8 of the storage, the class is stored; for a wrapper type without companion class the call
is fatal. -/
theorem C11_AllocateObjCBridge_fatal_iff_size_mismatch_witness :
    (∃ calls, AllocateObjCBridge exampleRuntime "Device" 8 none
        { address := 64, m_ObjcBridge := none, m_Real := some 7 } =
      Except.ok ({ address := 64, m_ObjcBridge := some 500, m_Real := some 7 },
        { klass := some 500, classSize := 8 }, calls)) ∧
    (∃ diagnostic, AllocateObjCBridge exampleRuntime "Texture" 8 none
        { address := 64, m_ObjcBridge := none, m_Real := some 7 } =
      Except.error diagnostic) :=
  ⟨(C11_AllocateObjCBridge_fatal_iff_size_mismatch exampleRuntime "Device" 8 none
      { address := 64, m_ObjcBridge := none, m_Real := some 7 } (Or.inl rfl)).2 (by decide),
   (C11_AllocateObjCBridge_fatal_iff_size_mismatch exampleRuntime "Texture" 8 none
      { address := 64, m_ObjcBridge := none, m_Real := some 7 } (Or.inl rfl)).1.2
      (by decide)⟩

/-! ## Device wrapper -/

/-- The constructor of the device wrapper when both bridge allocations succeed. -/
theorem WrappedMTLDevice.ctor_ok (env : DeviceDeclarations) (w : DeviceWorld) (this : Nat)
    (self : WrappedMTLDevice) (real : Option Nat) (objId : ResourceId) (o1 o2 : Nat)
    (h1 : env.AllocateObjCWrapper w.objcWrappers this = Except.ok o1)
    (h2 : env.AllocateObjCWrapper (w.objcWrappers + 1) this = Except.ok o2) :
    WrappedMTLDevice.ctor env w this self real objId =
      ({ w with
          objcWrappers := w.objcWrappers + 1 + 1
          tlsSlots := w.tlsSlots + 1
          trace := w.trace ++
            [DeviceEvent.WrappedMTLObject this real objId,
             DeviceEvent.AllocateObjCWrapper this,
             DeviceEvent.AllocateObjCWrapper this,
             DeviceEvent.AllocateTLSSlot,
             DeviceEvent.MetalResourceManager this,
             DeviceEvent.AddCurrentResource objId this] },
       { self with
          m_Real := real
          m_ID := objId
          m_WrappedMTLDevice := some this
          m_State := env.GetStateRef
          wrappedObjC := some o1
          objc := some o2
          threadSerialiserTLSSlot := some w.tlsSlots
          m_ResourceManager := some { currentResources := [(objId, this)] } },
       none) := by
  simp [WrappedMTLDevice.ctor, WrappedMTLObject.ctor, WrappedMTLDevice.Construct, h1, h2,
    MetalResourceManager.AddCurrentResource, MetalResourceManager.GetCurrentResource]

/-- The constructor of the device wrapper when the first bridge allocation fails. -/
theorem WrappedMTLDevice.ctor_fatal_first (env : DeviceDeclarations) (w : DeviceWorld)
    (this : Nat) (self : WrappedMTLDevice) (real : Option Nat) (objId : ResourceId)
    (e : String) (h1 : env.AllocateObjCWrapper w.objcWrappers this = Except.error e) :
    WrappedMTLDevice.ctor env w this self real objId =
      ({ w with
          trace := w.trace ++
            [DeviceEvent.WrappedMTLObject this real objId,
             DeviceEvent.AllocateObjCWrapper this] },
       { self with
          m_Real := real
          m_ID := objId
          m_WrappedMTLDevice := some this
          m_State := env.GetStateRef },
       some e) := by
  simp [WrappedMTLDevice.ctor, WrappedMTLObject.ctor, h1]

/-- The constructor of the device wrapper when the second bridge allocation fails. -/
theorem WrappedMTLDevice.ctor_fatal_second (env : DeviceDeclarations) (w : DeviceWorld)
    (this : Nat) (self : WrappedMTLDevice) (real : Option Nat) (objId : ResourceId)
    (o1 : Nat) (e : String)
    (h1 : env.AllocateObjCWrapper w.objcWrappers this = Except.ok o1)
    (h2 : env.AllocateObjCWrapper (w.objcWrappers + 1) this = Except.error e) :
    WrappedMTLDevice.ctor env w this self real objId =
      ({ w with
          objcWrappers := w.objcWrappers + 1
          trace := w.trace ++
            [DeviceEvent.WrappedMTLObject this real objId,
             DeviceEvent.AllocateObjCWrapper this,
             DeviceEvent.AllocateObjCWrapper this] },
       { self with
          m_Real := real
          m_ID := objId
          m_WrappedMTLDevice := some this
          m_State := env.GetStateRef
          wrappedObjC := some o1 },
       some e) := by
  simp [WrappedMTLDevice.ctor, WrappedMTLObject.ctor, WrappedMTLDevice.Construct, h1, h2]

/-- One call of `MTLCreateSystemDefaultDevice` when both bridge allocations succeed. -/
theorem WrappedMTLDevice.MTLCreateSystemDefaultDevice_ok (env : DeviceDeclarations)
    (w : DeviceWorld) (real : Option Nat) (o1 o2 : Nat)
    (h1 : env.AllocateObjCWrapper w.objcWrappers w.heap.length = Except.ok o1)
    (h2 : env.AllocateObjCWrapper (w.objcWrappers + 1) w.heap.length = Except.ok o2) :
    WrappedMTLDevice.MTLCreateSystemDefaultDevice env w real =
      ({ heap := w.heap ++
            [{ m_Real := real
               m_ID := env.GetNewUniqueID w.idsIssued
               m_WrappedMTLDevice := some w.heap.length
               m_State := env.GetStateRef
               wrappedObjC := some o1
               objc := some o2
               threadSerialiserTLSSlot := some w.tlsSlots
               m_ResourceManager := some
                 { currentResources := [(env.GetNewUniqueID w.idsIssued, w.heap.length)] } }]
         objcWrappers := w.objcWrappers + 1 + 1
         tlsSlots := w.tlsSlots + 1
         idsIssued := w.idsIssued + 1
         trace := w.trace ++
            [DeviceEvent.WrappedMTLObject w.heap.length real (env.GetNewUniqueID w.idsIssued),
             DeviceEvent.AllocateObjCWrapper w.heap.length,
             DeviceEvent.AllocateObjCWrapper w.heap.length,
             DeviceEvent.AllocateTLSSlot,
             DeviceEvent.MetalResourceManager w.heap.length,
             DeviceEvent.AddCurrentResource (env.GetNewUniqueID w.idsIssued) w.heap.length] },
       Except.ok (env.UnwrapObjC
         { m_Real := real
           m_ID := env.GetNewUniqueID w.idsIssued
           m_WrappedMTLDevice := some w.heap.length
           m_State := env.GetStateRef
           wrappedObjC := some o1
           objc := some o2
           threadSerialiserTLSSlot := some w.tlsSlots
           m_ResourceManager := some
             { currentResources := [(env.GetNewUniqueID w.idsIssued, w.heap.length)] } })) := by
  unfold WrappedMTLDevice.MTLCreateSystemDefaultDevice
  simp only
  have hc := WrappedMTLDevice.ctor_ok env { w with idsIssued := w.idsIssued + 1 }
    w.heap.length {} real (env.GetNewUniqueID w.idsIssued) o1 o2 h1 h2
  rw [hc]

/-- One call of `MTLCreateSystemDefaultDevice` when no bridge allocation fails: it returns,
and puts one wrapper on the heap, with the next id of the generator, the real device, and a
registry holding the wrapper under its id. -/
theorem WrappedMTLDevice.MTLCreateSystemDefaultDevice_spec (env : DeviceDeclarations)
    (halloc : ∀ n this, ∃ o, env.AllocateObjCWrapper n this = Except.ok o)
    (w : DeviceWorld) (real : Option Nat) :
    ∃ w1 handle d, WrappedMTLDevice.MTLCreateSystemDefaultDevice env w real =
        (w1, Except.ok handle) ∧
      w1.heap = w.heap ++ [d] ∧ w1.idsIssued = w.idsIssued + 1 ∧
      d.m_ID = env.GetNewUniqueID w.idsIssued ∧ d.m_Real = real ∧
      d.m_ResourceManager =
        some { currentResources := [(env.GetNewUniqueID w.idsIssued, w.heap.length)] } := by
  obtain ⟨o1, h1⟩ := halloc w.objcWrappers w.heap.length
  obtain ⟨o2, h2⟩ := halloc (w.objcWrappers + 1) w.heap.length
  exact ⟨_, _, _, WrappedMTLDevice.MTLCreateSystemDefaultDevice_ok env w real o1 o2 h1 h2,
    rfl, rfl, rfl, rfl, rfl⟩

/-- A sequence of creations when no bridge allocation fails: every call returns, the heap
grows by one wrapper per call and keeps the wrappers it had, and the wrapper of call `k`
has the id issued `k`-th, the real device `k` and a registry that resolves its id to it. -/
theorem createDevices_ok (env : DeviceDeclarations)
    (halloc : ∀ n this, ∃ o, env.AllocateObjCWrapper n this = Except.ok o)
    (reals : List (Option Nat)) (w : DeviceWorld) :
    (∃ handles, (createDevices env w reals).2 = Except.ok handles ∧
      handles.length = reals.length) ∧
    (createDevices env w reals).1.heap.length = w.heap.length + reals.length ∧
    (∀ a, a < w.heap.length → (createDevices env w reals).1.heap[a]? = w.heap[a]?) ∧
    (∀ k, k < reals.length → ∃ d rm,
      (createDevices env w reals).1.heap[w.heap.length + k]? = some d ∧
      d.m_ID = env.GetNewUniqueID (w.idsIssued + k) ∧
      d.m_Real = reals.getD k none ∧
      d.m_ResourceManager = some rm ∧
      rm.GetCurrentResource d.m_ID = some (w.heap.length + k)) := by
  induction reals generalizing w with
  | nil =>
    refine ⟨⟨[], rfl, rfl⟩, rfl, fun a _ => rfl, ?_⟩
    intro k hk
    cases hk
  | cons real reals ih =>
    obtain ⟨w1, handle, d0, hcall, hheap, hids, hid0, hreal0, hrm0⟩ :=
      WrappedMTLDevice.MTLCreateSystemDefaultDevice_spec env halloc w real
    have hlen1 : w1.heap.length = w.heap.length + 1 := by rw [hheap]; simp
    obtain ⟨⟨handles, hh, hhl⟩, hl, hpre, hnew⟩ := ih w1
    have hstep : createDevices env w (real :: reals) =
        ((createDevices env w1 reals).1, Except.ok (handle :: handles)) := by
      rw [createDevices, hcall]
      simp only
      cases hres : createDevices env w1 reals with
      | mk w2 r2 =>
        rw [hres] at hh
        simp only at hh
        rw [hh]
    rw [hstep]
    refine ⟨⟨_, rfl, by simp [hhl]⟩, ?_, ?_, ?_⟩
    · show (createDevices env w1 reals).1.heap.length = _
      rw [hl, hlen1, List.length_cons]
      omega
    · intro a ha
      show (createDevices env w1 reals).1.heap[a]? = _
      rw [hpre a (by omega), hheap, List.getElem?_append_left ha]
    · intro k hk
      show ∃ d rm, (createDevices env w1 reals).1.heap[w.heap.length + k]? = some d ∧ _
      cases k with
      | zero =>
        refine ⟨d0, _, ?_, hid0, by simpa using hreal0, hrm0, ?_⟩
        · rw [Nat.add_zero, hpre _ (by omega), hheap,
            List.getElem?_append_right (le_refl _)]
          simp
        · rw [hid0]
          simp [MetalResourceManager.GetCurrentResource]
      | succ k =>
        obtain ⟨d, rm, hd, hid, hreal, hrm, hlook⟩ := hnew k (by simpa using hk)
        have hidx : w1.heap.length + k = w.heap.length + (k + 1) := by omega
        have hidn : w1.idsIssued + k = w.idsIssued + (k + 1) := by omega
        rw [hidx] at hd hlook
        rw [hidn] at hid
        exact ⟨d, rm, hd, hid, by simpa using hreal, hrm, hlook⟩

/-- C12. Registration happens last. When both bridge allocations of a construction succeed,
the construction completes and its effects are, in order, the storing of the handle, the
two bridge allocations, the thread-local slot allocation, the resource manager creation and,
last, `AddCurrentResource(objId, this)`. When a bridge allocation fails fatally, the
construction ends with that fatal error, none of its effects is an `AddCurrentResource`, and
the wrapper has no other registry than its storage had (none, for fresh storage). -/
theorem C12_registration_happens_last (env : DeviceDeclarations) (w : DeviceWorld)
    (this : Nat) (self : WrappedMTLDevice) (real : Option Nat) (objId : ResourceId) :
    (∀ o1 o2, env.AllocateObjCWrapper w.objcWrappers this = Except.ok o1 →
      env.AllocateObjCWrapper (w.objcWrappers + 1) this = Except.ok o2 →
      (WrappedMTLDevice.ctor env w this self real objId).2.2 = none ∧
      (WrappedMTLDevice.ctor env w this self real objId).1.trace =
        w.trace ++
          [DeviceEvent.WrappedMTLObject this real objId,
           DeviceEvent.AllocateObjCWrapper this,
           DeviceEvent.AllocateObjCWrapper this,
           DeviceEvent.AllocateTLSSlot,
           DeviceEvent.MetalResourceManager this,
           DeviceEvent.AddCurrentResource objId this] ∧
      (WrappedMTLDevice.ctor env w this self real objId).2.1.m_ResourceManager =
        some { currentResources := [(objId, this)] }) ∧
    (∀ e, (env.AllocateObjCWrapper w.objcWrappers this = Except.error e ∨
        ∃ o1, env.AllocateObjCWrapper w.objcWrappers this = Except.ok o1 ∧
          env.AllocateObjCWrapper (w.objcWrappers + 1) this = Except.error e) →
      (WrappedMTLDevice.ctor env w this self real objId).2.2 = some e ∧
      (∃ evs, (WrappedMTLDevice.ctor env w this self real objId).1.trace = w.trace ++ evs ∧
        ∀ id a, DeviceEvent.AddCurrentResource id a ∉ evs) ∧
      (WrappedMTLDevice.ctor env w this self real objId).2.1.m_ResourceManager =
        self.m_ResourceManager ∧
      (WrappedMTLDevice.ctor env w this self real objId).1.heap = w.heap) := by
  constructor
  · intro o1 o2 h1 h2
    rw [WrappedMTLDevice.ctor_ok env w this self real objId o1 o2 h1 h2]
    exact ⟨rfl, rfl, rfl⟩
  · intro e he
    rcases he with h1 | ⟨o1, h1, h2⟩
    · rw [WrappedMTLDevice.ctor_fatal_first env w this self real objId e h1]
      refine ⟨rfl, ⟨_, rfl, ?_⟩, rfl, rfl⟩
      intro id a hmem
      simp at hmem
    · rw [WrappedMTLDevice.ctor_fatal_second env w this self real objId o1 e h1 h2]
      refine ⟨rfl, ⟨_, rfl, ?_⟩, rfl, rfl⟩
      intro id a hmem
      simp at hmem

/-- C12, with a bridge that fails: the construction of a device on fresh storage ends with
the fatal error of the bridge, and the wrapper has no registry. -/
theorem C12_registration_happens_last_witness :
    (WrappedMTLDevice.ctor failingDeviceDeclarations {} 0 {} (some 100) 1).2.2 =
      some "classSize != sizeof(m_ObjcBridge)" ∧
    (WrappedMTLDevice.ctor failingDeviceDeclarations {} 0 {} (some 100) 1).2.1.m_ResourceManager =
      none := by
  have t := (C12_registration_happens_last failingDeviceDeclarations {} 0 {} (some 100) 1).2
    "classSize != sizeof(m_ObjcBridge)" (Or.inl rfl)
  exact ⟨t.1, t.2.2.1⟩

/-- C13. Identity uniqueness and resolution on creation: with an id generator that never
repeats an id and a bridge that does not fail, a sequence of `N` calls of
`MTLCreateSystemDefaultDevice` from any world returns `N` handles; the wrapper that call `k`
made has the id issued by that call and the real device of that call, and looking its id up
in the registry it registered with gives the address of that wrapper; and the ids of the
wrappers of two different calls are different. The statement holds for every sequence,
so for every prefix of one, which gives it after each call. -/
theorem C13_identity_unique_and_resolves (env : DeviceDeclarations) (w : DeviceWorld)
    (reals : List (Option Nat))
    (hgen : Function.Injective env.GetNewUniqueID)
    (halloc : ∀ n this, ∃ o, env.AllocateObjCWrapper n this = Except.ok o) :
    (∃ handles, (createDevices env w reals).2 = Except.ok handles ∧
      handles.length = reals.length) ∧
    (∀ k, k < reals.length → ∃ d rm,
      (createDevices env w reals).1.heap[w.heap.length + k]? = some d ∧
      d.m_ID = env.GetNewUniqueID (w.idsIssued + k) ∧
      d.m_Real = reals.getD k none ∧
      d.m_ResourceManager = some rm ∧
      rm.GetCurrentResource d.m_ID = some (w.heap.length + k)) ∧
    (∀ j k dj dk, j < reals.length → k < reals.length → j ≠ k →
      (createDevices env w reals).1.heap[w.heap.length + j]? = some dj →
      (createDevices env w reals).1.heap[w.heap.length + k]? = some dk →
      dj.m_ID ≠ dk.m_ID) := by
  obtain ⟨hret, _, _, hnew⟩ := createDevices_ok env halloc reals w
  refine ⟨hret, hnew, ?_⟩
  intro j k dj dk hj hk hjk hdj hdk heq
  obtain ⟨d1, _, hd1, hid1, _⟩ := hnew j hj
  obtain ⟨d2, _, hd2, hid2, _⟩ := hnew k hk
  rw [hdj] at hd1
  rw [hdk] at hd2
  cases hd1
  cases hd2
  rw [hid1, hid2] at heq
  have := hgen heq
  omega

/-- C13, on two calls from the empty world with the ids 1, 2, 3, and so on: both calls
return, and the two wrappers have different ids. -/
theorem C13_identity_unique_and_resolves_witness :
    (∃ handles, (createDevices exampleDeviceDeclarations {} [some 100, some 200]).2 =
        Except.ok handles ∧ handles.length = 2) ∧
    (∀ dj dk,
      (createDevices exampleDeviceDeclarations {} [some 100, some 200]).1.heap[0]? = some dj →
      (createDevices exampleDeviceDeclarations {} [some 100, some 200]).1.heap[1]? = some dk →
      dj.m_ID ≠ dk.m_ID) := by
  have t := C13_identity_unique_and_resolves exampleDeviceDeclarations {}
    [some 100, some 200] (fun a b hab => Nat.succ.inj hab) (fun n _ => ⟨1000 + n, rfl⟩)
  exact ⟨t.1, fun dj dk h0 h1 => t.2.2 0 1 dj dk (by decide) (by decide) (by decide) h0 h1⟩

/-- C14, as stated, fails: the construction of a device on fresh storage, with a bridge that
does not fail, calls `AllocateObjCWrapper` twice, once in the constructor and once in
`Construct`. -/
theorem C14_bridge_allocated_once_counterexample :
    (WrappedMTLDevice.ctor exampleDeviceDeclarations {} 0 {} (some 100) 1).1.trace =
      [DeviceEvent.WrappedMTLObject 0 (some 100) 1,
       DeviceEvent.AllocateObjCWrapper 0,
       DeviceEvent.AllocateObjCWrapper 0,
       DeviceEvent.AllocateTLSSlot,
       DeviceEvent.MetalResourceManager 0,
       DeviceEvent.AddCurrentResource 1 0] ∧
    ((WrappedMTLDevice.ctor exampleDeviceDeclarations {} 0 {} (some 100) 1).1.trace).count
      (DeviceEvent.AllocateObjCWrapper 0) = 2 ∧
    (WrappedMTLDevice.ctor exampleDeviceDeclarations {} 0 {} (some 100) 1).2.1.wrappedObjC =
      some 1000 ∧
    (WrappedMTLDevice.ctor exampleDeviceDeclarations {} 0 {} (some 100) 1).2.1.objc =
      some 1001 := by
  decide

/-- C14, amended. A construction of a device wrapper whose bridge allocations succeed
consists, in this order, of storing the real handle, allocating a bridge companion in the
constructor (kept in `wrappedObjC`), allocating a bridge companion again in `Construct`
(kept in `objc`), allocating the thread-local slot, creating the resource manager, and
registering with that registry; every step but the bridge allocation occurs once. -/
theorem C14_construction_steps_in_order (env : DeviceDeclarations) (w : DeviceWorld)
    (this : Nat) (self : WrappedMTLDevice) (real : Option Nat) (objId : ResourceId)
    (o1 o2 : Nat)
    (h1 : env.AllocateObjCWrapper w.objcWrappers this = Except.ok o1)
    (h2 : env.AllocateObjCWrapper (w.objcWrappers + 1) this = Except.ok o2) :
    (WrappedMTLDevice.ctor env w this self real objId).2.2 = none ∧
    (WrappedMTLDevice.ctor env w this self real objId).1.trace =
      w.trace ++
        [DeviceEvent.WrappedMTLObject this real objId,
         DeviceEvent.AllocateObjCWrapper this,
         DeviceEvent.AllocateObjCWrapper this,
         DeviceEvent.AllocateTLSSlot,
         DeviceEvent.MetalResourceManager this,
         DeviceEvent.AddCurrentResource objId this] ∧
    (WrappedMTLDevice.ctor env w this self real objId).2.1.m_Real = real ∧
    (WrappedMTLDevice.ctor env w this self real objId).2.1.m_ID = objId ∧
    (WrappedMTLDevice.ctor env w this self real objId).2.1.wrappedObjC = some o1 ∧
    (WrappedMTLDevice.ctor env w this self real objId).2.1.objc = some o2 ∧
    (WrappedMTLDevice.ctor env w this self real objId).2.1.threadSerialiserTLSSlot =
      some w.tlsSlots ∧
    (WrappedMTLDevice.ctor env w this self real objId).2.1.m_ResourceManager =
      some { currentResources := [(objId, this)] } ∧
    (WrappedMTLDevice.ctor env w this self real objId).1.objcWrappers =
      w.objcWrappers + 2 ∧
    (WrappedMTLDevice.ctor env w this self real objId).1.tlsSlots = w.tlsSlots + 1 := by
  rw [WrappedMTLDevice.ctor_ok env w this self real objId o1 o2 h1 h2]
  exact ⟨rfl, rfl, rfl, rfl, rfl, rfl, rfl, rfl, rfl, rfl⟩

/-- C14, amended, on the construction of a second device after a first one: the two bridge
companions are the third and the fourth that were allocated. -/
theorem C14_construction_steps_in_order_witness :
    (WrappedMTLDevice.ctor exampleDeviceDeclarations
      (createDevices exampleDeviceDeclarations {} [some 100]).1 1 {} (some 200)
      2).2.1.wrappedObjC = some 1002 ∧
    (WrappedMTLDevice.ctor exampleDeviceDeclarations
      (createDevices exampleDeviceDeclarations {} [some 100]).1 1 {} (some 200)
      2).2.1.objc = some 1003 :=
  have t := C14_construction_steps_in_order exampleDeviceDeclarations
    (createDevices exampleDeviceDeclarations {} [some 100]).1 1 {} (some 200) 2 1002 1003
    rfl rfl
  ⟨t.2.2.2.2.1, t.2.2.2.2.2.1⟩
